import Mathlib

/-!
# Vulkan graphics context (`vk_context.cc`) and bit utilities (`BLI_math_bits_test.cc`)

A shallow embedding of `blender::gpu::VKContext`: the context's fields, the objects it
reaches through pointers (device, thread data, frame-buffers) and an ordered trace of the
calls it makes on its collaborators. Assertion failures and accesses to an empty
`std::optional` are results of type `Failure`.
-/

namespace Blender

/-! ## Plain Vulkan / GHOST data -/

/-- Vulkan `VkExtent2D`. -/
structure VkExtent2D where
  width : Nat
  height : Nat
deriving DecidableEq

/-- Vulkan `VkSurfaceFormatKHR`. -/
structure VkSurfaceFormatKHR where
  format : Nat
  colorSpace : Nat
deriving DecidableEq

/-- The swap-chain description `GHOST_VulkanSwapChainData` handed over by the window system. -/
structure GHOST_VulkanSwapChainData where
  image : Nat
  surface_format : VkSurfaceFormatKHR
  extent : VkExtent2D
  submission_fence : Nat
  acquire_semaphore : Nat
  present_semaphore : Nat
deriving DecidableEq

/-- Vulkan constant `VK_NULL_HANDLE`. -/
def VK_NULL_HANDLE : Nat := 0
/-- Vulkan constant `VK_FILTER_NEAREST`. -/
def VK_FILTER_NEAREST : Nat := 0
/-- Vulkan constant `VK_IMAGE_ASPECT_COLOR_BIT`. -/
def VK_IMAGE_ASPECT_COLOR_BIT : Nat := 1
/-- Vulkan constant `VK_IMAGE_LAYOUT_PRESENT_SRC_KHR`. -/
def VK_IMAGE_LAYOUT_PRESENT_SRC_KHR : Nat := 1000001002
/-- Vulkan constant `VK_PIPELINE_STAGE_COMPUTE_SHADER_BIT`. -/
def VK_PIPELINE_STAGE_COMPUTE_SHADER_BIT : Nat := 0x800
/-- Vulkan constant `VK_PIPELINE_STAGE_TRANSFER_BIT`. -/
def VK_PIPELINE_STAGE_TRANSFER_BIT : Nat := 0x1000
/-- Vulkan constant `VK_PIPELINE_STAGE_NONE`, the default `wait_dst_stage_mask`. -/
def VK_PIPELINE_STAGE_NONE : Nat := 0

/-- The conversion `int32_t(x)` of a 32-bit unsigned value. -/
def int32_t (x : Nat) : Int :=
  if x % 2 ^ 32 < 2 ^ 31 then (x % 2 ^ 32 : Nat) else (x % 2 ^ 32 : Nat) - 2 ^ 32

/-! ## Flush flags -/

/-- Modelled from the spec: the enum `RenderGraphFlushFlags` is declared in `vk_context.hh`,
which is not among the sources; section 4.2 describes it as a set of three independent flags.
It is a bit mask, `RenderGraphFlushFlags(0)` being the empty set. -/
abbrev RenderGraphFlushFlags := Nat

/-- Modelled from the spec: flag `RENEW_RENDER_GRAPH` of the absent enum, one bit. -/
def RenderGraphFlushFlags.RENEW_RENDER_GRAPH : RenderGraphFlushFlags := 1
/-- Modelled from the spec: flag `SUBMIT` of the absent enum, one bit. -/
def RenderGraphFlushFlags.SUBMIT : RenderGraphFlushFlags := 2
/-- Modelled from the spec: flag `WAIT_FOR_COMPLETION` of the absent enum, one bit. -/
def RenderGraphFlushFlags.WAIT_FOR_COMPLETION : RenderGraphFlushFlags := 4

/-- The test `bool(flags & flag)`. -/
def RenderGraphFlushFlags.has (flags flag : RenderGraphFlushFlags) : Bool :=
  flags &&& flag != 0

/-! ## Render graph -/

/-- Three-component offset `VkOffset3D`. -/
structure VkOffset3D where
  x : Int
  y : Int
  z : Int
deriving DecidableEq

/-- Vulkan `VkImageSubresourceLayers`. -/
structure VkImageSubresourceLayers where
  aspectMask : Nat
  mipLevel : Nat
  baseArrayLayer : Nat
  layerCount : Nat
deriving DecidableEq

/-- Creation data of a blit node, `render_graph::VKBlitImageNode::CreateInfo`. -/
structure VKBlitImageNode where
  src_image : Nat
  dst_image : Nat
  filter : Nat
  srcOffsets0 : VkOffset3D
  srcOffsets1 : VkOffset3D
  srcSubresource : VkImageSubresourceLayers
  dstOffsets0 : VkOffset3D
  dstOffsets1 : VkOffset3D
  dstSubresource : VkImageSubresourceLayers
deriving DecidableEq

/-- Creation data of a synchronization node, `render_graph::VKSynchronizationNode::CreateInfo`. -/
structure VKSynchronizationNode where
  vk_image : Nat
  vk_image_layout : Nat
  vk_image_aspect : Nat
deriving DecidableEq

/-- A work node of the render graph. `other` stands for the nodes that drawing code outside
`vk_context.cc` records. -/
inductive Node where
  | blit_image (info : VKBlitImageNode)
  | synchronization (info : VKSynchronizationNode)
  | other (tag : Nat)
deriving DecidableEq

/-- One thing recorded on a render graph: a work node or a debug-group marker. -/
inductive Command where
  | add_node (node : Node)
  | debug_group_begin (name : String)
  | debug_group_end
deriving DecidableEq

/-- Modelled from the spec: `render_graph::VKRenderGraph` (section 3), an append-only ordered
sequence of recorded commands. `id` is the identity of the graph object. -/
structure VKRenderGraph where
  id : Nat
  commands : List Command
deriving DecidableEq

/-- The work nodes of a graph in append order. -/
def VKRenderGraph.nodes (g : VKRenderGraph) : List Node :=
  g.commands.filterMap fun c =>
    match c with
    | Command.add_node n => some n
    | _ => none

/-- The debug groups left open by a sequence of commands, outermost first. -/
def open_groups : List String → List Command → List String
  | stack, [] => stack
  | stack, Command.debug_group_begin name :: cs => open_groups (stack ++ [name]) cs
  | stack, Command.debug_group_end :: cs => open_groups stack.dropLast cs
  | stack, Command.add_node _ :: cs => open_groups stack cs

/-- The debug groups open on a graph, outermost first; the last one is the group that the
next `debug_group_end` closes. -/
def VKRenderGraph.group_stack (g : VKRenderGraph) : List String :=
  open_groups [] g.commands

/-! ## Textures, frame-buffers, thread data, device -/

/-- A texture as far as the context reads it: `vk_image_handle()`, `width_get()`,
`height_get()` and its format. -/
structure VKTexture where
  vk_image : Nat
  width : Nat
  height : Nat
  format : Nat
deriving DecidableEq

/-- A frame-buffer as far as the context reads it: the rendering sub-state and colour
attachment 0. -/
structure VKFrameBuffer where
  is_rendering_ : Bool
  color_attachment0 : Option VKTexture
deriving DecidableEq

/-- Modelled from the spec: `VKThreadData` is declared in `vk_device.hh`, which is not among
the sources; section 3 describes its resource pools as a fixed-size ring with one current
slot. -/
structure VKThreadData where
  resource_pool_index : Nat
  resource_pools_count : Nat
deriving DecidableEq

/-- Modelled from the spec: `VKThreadData::resource_pool_next` (absent), which advances the
ring by one slot and wraps at the ring size. -/
def VKThreadData.resource_pool_next (td : VKThreadData) : VKThreadData :=
  { td with resource_pool_index := (td.resource_pool_index + 1) % td.resource_pools_count }

/-- Modelled from the spec: `VKThreadData::resource_pool_get` (absent), the current slot of
the ring. -/
def VKThreadData.resource_pool_get (td : VKThreadData) : Nat :=
  td.resource_pool_index

/-- The arguments of one `VKDevice::render_graph_submit` call (the discard pool, which is
always the context's own, is left out). -/
structure SubmitCall where
  render_graph : VKRenderGraph
  submit_to_device : Bool
  wait_for_completion : Bool
  wait_dst_stage_mask : Nat
  wait_semaphore : Nat
  signal_semaphore : Nat
  signal_fence : Nat
deriving DecidableEq

/-- Modelled from the spec: the part of `VKDevice` (absent) the context uses: the data of
each thread, the number of graphs handed out so far and the timeline counter. -/
structure VKDevice where
  thread_data : Nat → VKThreadData
  render_graphs_created : Nat
  timeline_value_ : Nat

/-- Modelled from the spec: `VKDevice::render_graph_submit` (absent). Section 3: the timeline
is a single counter per device incremented by exactly one unit per submission, and the stamp
returned is the one of that submission. -/
def VKDevice.render_graph_submit (device : VKDevice) (call : SubmitCall) : Nat × VKDevice :=
  if call.submit_to_device then
    (device.timeline_value_ + 1, { device with timeline_value_ := device.timeline_value_ + 1 })
  else
    (device.timeline_value_, device)

/-- Modelled from the spec: `VKDevice::render_graph_new` (absent), which hands out a fresh,
empty graph. -/
def VKDevice.render_graph_new (device : VKDevice) : VKRenderGraph × VKDevice :=
  ({ id := device.render_graphs_created, commands := [] },
   { device with render_graphs_created := device.render_graphs_created + 1 })

/-! ## Trace of calls on collaborators -/

/-- A call the context makes on a collaborator, in the order made. -/
inductive Event where
  | rendering_end (fb : Nat)
  | update_size (fb : Nat)
  | update_srgb (fb : Nat)
  | rendering_reset (fb : Nat)
  | attachment_set (fb : Nat) (tex : VKTexture)
  | bind (fb : Nat) (enabled_srgb : Bool)
  | texture_free (tex : VKTexture)
  | texture_create (tex : VKTexture)
  | upload_descriptor_sets (thread : Nat) (slot : Nat)
  | resource_pool_next (thread : Nat)
  | render_graph_submit (call : SubmitCall) (timeline : Nat)
  | render_graph_new (id : Nat)
  | resources_add_image (image : Nat)
  | resources_remove_image (image : Nat)
  | immActivate
  | immDeactivate
deriving DecidableEq

/-- How an operation can stop short. -/
inductive Failure where
  | assertion (what : String)
  | bad_optional_access
  | null_dereference
deriving DecidableEq

/-! ## The context -/

/-- The fields of `VKContext` (with those of its base class `Context`) that `vk_context.cc`
reads or writes. Pointers to frame-buffers are indices into the frame-buffer store;
`thread_data_` holds the id of the bound thread; `imm` points at the immediate-draw helper
of resource-pool slot `(thread, slot)`. -/
structure VKContext where
  ghost_window_ : Option Nat
  is_active_ : Bool
  thread_data_ : Option Nat
  render_graph_ : Option VKRenderGraph
  debug_stack : List String
  imm : Option (Nat × Nat)
  back_left : Nat
  front_left : Nat
  active_fb : Option Nat
  surface_texture_ : Option VKTexture
  swap_chain_format_ : VkSurfaceFormatKHR
  vk_extent_ : VkExtent2D

/-- The context together with everything it reaches: the device, the frame-buffer objects,
the number of images allocated so far, whether GPU debugging is switched on, and the trace. -/
structure State where
  ctx : VKContext
  device : VKDevice
  framebuffers : Nat → VKFrameBuffer
  images_created : Nat
  G_debug_gpu : Bool
  trace : List Event

/-- Constructor `VKContext::VKContext(ghost_window, ghost_context)`: two new frame-buffers,
`back_left` active; every other member has its default value. -/
def VKContext.new (ghost_window : Option Nat) (back_left front_left : Nat) : VKContext :=
  { ghost_window_ := ghost_window
    is_active_ := false
    thread_data_ := none
    render_graph_ := none
    debug_stack := []
    imm := none
    back_left := back_left
    front_left := front_left
    active_fb := some back_left
    surface_texture_ := none
    swap_chain_format_ := { format := 0, colorSpace := 0 }
    vk_extent_ := { width := 0, height := 0 } }

/-- Append one call to the trace. -/
def State.emit (s : State) (e : Event) : State :=
  { s with trace := s.trace ++ [e] }

/-- Replace one frame-buffer object. -/
def State.set_framebuffer (s : State) (fb : Nat) (v : VKFrameBuffer) : State :=
  { s with framebuffers := Function.update s.framebuffers fb v }

/-! ### Frame-buffer collaborators -/

/-- Modelled from the spec: `VKFrameBuffer::rendering_end` (absent), section 4.3: leaves the
rendering sub-state; the call is the observable end-of-rendering side effect. -/
def VKFrameBuffer.rendering_end (fb : Nat) (s : State) : State :=
  (s.set_framebuffer fb { s.framebuffers fb with is_rendering_ := false }).emit
    (Event.rendering_end fb)

/-- Modelled from the spec: `VKFrameBuffer::update_size` (absent), section 4.3: recomputes
size metadata; only the call is recorded. -/
def VKFrameBuffer.update_size (fb : Nat) (s : State) : State :=
  s.emit (Event.update_size fb)

/-- Modelled from the spec: `VKFrameBuffer::update_srgb` (absent), section 4.3: recomputes
colour-space metadata; only the call is recorded. -/
def VKFrameBuffer.update_srgb (fb : Nat) (s : State) : State :=
  s.emit (Event.update_srgb fb)

/-- Modelled from the spec: `VKFrameBuffer::rendering_reset` (absent): the frame-buffer
starts in the idle sub-state of section 4.3. -/
def VKFrameBuffer.rendering_reset (fb : Nat) (s : State) : State :=
  (s.set_framebuffer fb { s.framebuffers fb with is_rendering_ := false }).emit
    (Event.rendering_reset fb)

/-- Modelled from the spec: `FrameBuffer::attachment_set` (absent) for slot
`GPU_FB_COLOR_ATTACHMENT0`. -/
def VKFrameBuffer.attachment_set (fb : Nat) (tex : VKTexture) (s : State) : State :=
  (s.set_framebuffer fb { s.framebuffers fb with color_attachment0 := some tex }).emit
    (Event.attachment_set fb tex)

namespace VKContext

/-- Source `VKContext::active_framebuffer_get`. -/
def active_framebuffer_get (s : State) : Option Nat :=
  s.ctx.active_fb

/-- Source `VKContext::has_active_framebuffer`. -/
def has_active_framebuffer (s : State) : Bool :=
  (active_framebuffer_get s).isSome

/-- Source `VKContext::deactivate_framebuffer`. -/
def deactivate_framebuffer (s : State) : Except Failure State :=
  match active_framebuffer_get s with
  | none => Except.error (Failure.assertion "framebuffer != nullptr")
  | some framebuffer =>
    let s1 := if (s.framebuffers framebuffer).is_rendering_ then
        VKFrameBuffer.rendering_end framebuffer s
      else s
    Except.ok { s1 with ctx := { s1.ctx with active_fb := none } }

/-- Source `VKContext::activate_framebuffer`. -/
def activate_framebuffer (framebuffer : Nat) (s : State) : Except Failure State :=
  match (if has_active_framebuffer s then deactivate_framebuffer s else Except.ok s) with
  | Except.error e => Except.error e
  | Except.ok s1 =>
    match s1.ctx.active_fb with
    | some _ => Except.error (Failure.assertion "active_fb == nullptr")
    | none =>
      let s2 : State := { s1 with ctx := { s1.ctx with active_fb := some framebuffer } }
      Except.ok (VKFrameBuffer.rendering_reset framebuffer
        (VKFrameBuffer.update_srgb framebuffer (VKFrameBuffer.update_size framebuffer s2)))

/-- Source `VKContext::rendering_end`. -/
def rendering_end (s : State) : State :=
  match active_framebuffer_get s with
  | some framebuffer => VKFrameBuffer.rendering_end framebuffer s
  | none => s

/-- Modelled from the spec: `VKContext::debug_group_begin` (in `vk_debug.cc`, absent):
section 6, opens a named scope on the open graph. -/
def debug_group_begin (name : String) (s : State) : Except Failure State :=
  match s.ctx.render_graph_ with
  | none => Except.error Failure.bad_optional_access
  | some g =>
    let g1 : VKRenderGraph :=
      { g with commands := g.commands ++ [Command.debug_group_begin name] }
    Except.ok { s with ctx := { s.ctx with render_graph_ := some g1 } }

/-- Modelled from the spec: `VKContext::debug_group_end` (in `vk_debug.cc`, absent):
section 6, closes the innermost scope of the open graph. -/
def debug_group_end (s : State) : Except Failure State :=
  match s.ctx.render_graph_ with
  | none => Except.error Failure.bad_optional_access
  | some g =>
    let g1 : VKRenderGraph := { g with commands := g.commands ++ [Command.debug_group_end] }
    Except.ok { s with ctx := { s.ctx with render_graph_ := some g1 } }

/-- The loop `for (const StringRef &group : debug_stack) debug_group_begin(group, 0)`. -/
def replay_debug_stack : List String → State → Except Failure State
  | [], s => Except.ok s
  | group :: rest, s =>
    match debug_group_begin group s with
    | Except.error e => Except.error e
    | Except.ok s1 => replay_debug_stack rest s1

/-- The statements `render_graph_ = *device.render_graph_new();` followed by the replay loop,
as they stand in both `activate` and `flush_render_graph`. -/
def open_render_graph (s : State) : Except Failure State :=
  let r := s.device.render_graph_new
  let s1 : State :=
    { s with ctx := { s.ctx with render_graph_ := some r.1 }
             device := r.2
             trace := s.trace ++ [Event.render_graph_new r.1.id] }
  replay_debug_stack s1.ctx.debug_stack s1

/-- Source `VKContext::descriptor_set_get`, then `upload_descriptor_sets()` on it. -/
def upload_descriptor_sets (s : State) : Except Failure State :=
  match s.ctx.thread_data_ with
  | none => Except.error Failure.bad_optional_access
  | some t =>
    Except.ok (s.emit (Event.upload_descriptor_sets t (s.device.thread_data t).resource_pool_get))

/-- The first statement of `flush_render_graph` (lines 157-162): the rendering sub-state of
the active frame-buffer, if there is one and it is rendering, is ended. -/
def flush_rendering_end (s : State) : State :=
  match active_framebuffer_get s with
  | some framebuffer =>
    if (s.framebuffers framebuffer).is_rendering_ then
      VKFrameBuffer.rendering_end framebuffer s
    else s
  | none => s

/-- Source `VKContext::flush_render_graph`. Returns the timeline value and the new state. -/
def flush_render_graph (flags : RenderGraphFlushFlags)
    (wait_dst_stage_mask wait_semaphore signal_semaphore signal_fence : Nat) (s : State) :
    Except Failure (Nat × State) :=
  let s1 := flush_rendering_end s
  match upload_descriptor_sets s1 with
  | Except.error e => Except.error e
  | Except.ok s2 =>
    match s2.ctx.render_graph_ with
    | none => Except.error Failure.bad_optional_access
    | some g =>
      let call : SubmitCall :=
        { render_graph := g
          submit_to_device := flags.has RenderGraphFlushFlags.SUBMIT
          wait_for_completion := flags.has RenderGraphFlushFlags.WAIT_FOR_COMPLETION
          wait_dst_stage_mask := wait_dst_stage_mask
          wait_semaphore := wait_semaphore
          signal_semaphore := signal_semaphore
          signal_fence := signal_fence }
      let r := s2.device.render_graph_submit call
      let timeline := r.1
      let s3 : State :=
        { s2 with device := r.2
                  trace := s2.trace ++ [Event.render_graph_submit call timeline] }
      let s4 : State := { s3 with ctx := { s3.ctx with render_graph_ := none } }
      if flags.has RenderGraphFlushFlags.RENEW_RENDER_GRAPH then
        match open_render_graph s4 with
        | Except.error e => Except.error e
        | Except.ok s5 => Except.ok (timeline, s5)
      else
        Except.ok (timeline, s4)

/-- Source `VKContext::flush`. -/
def flush (s : State) : Except Failure State :=
  match flush_render_graph RenderGraphFlushFlags.RENEW_RENDER_GRAPH
      VK_PIPELINE_STAGE_NONE VK_NULL_HANDLE VK_NULL_HANDLE VK_NULL_HANDLE s with
  | Except.error e => Except.error e
  | Except.ok r => Except.ok r.2

/-- Modelled from the spec: `VKFrameBuffer::bind` (absent): binding a frame-buffer makes it
the active frame-buffer of the context (section 4.3). -/
def bind_framebuffer (fb : Nat) (enabled_srgb : Bool) (s : State) : Except Failure State :=
  activate_framebuffer fb (s.emit (Event.bind fb enabled_srgb))

/-- Lines 60-64 of `sync_backbuffer`: the ring of the bound thread `t` is advanced and `imm`
is pointed at the immediate-draw helper of the slot that is current afterwards. -/
def cycle_resource_pool_step (t : Nat) (s : State) : State :=
  let dev : VKDevice :=
    { s.device with thread_data :=
        Function.update s.device.thread_data t (s.device.thread_data t).resource_pool_next }
  { s with device := dev
           ctx := { s.ctx with imm := some (t, (dev.thread_data t).resource_pool_get) }
           trace := s.trace ++ [Event.resource_pool_next t] }

/-- Line 66-71 of `sync_backbuffer`: whether the reported swap-chain data differs from the
recorded format and extent. -/
def reset_framebuffer (swap_chain_data : GHOST_VulkanSwapChainData) (s : State) : Bool :=
  s.ctx.swap_chain_format_.format != swap_chain_data.surface_format.format ||
  s.ctx.swap_chain_format_.colorSpace != swap_chain_data.surface_format.colorSpace ||
  s.ctx.vk_extent_.width != swap_chain_data.extent.width ||
  s.ctx.vk_extent_.height != swap_chain_data.extent.height

/-- Lines 76-92 of `sync_backbuffer`: the old surface texture, if any, is freed, a new one is
created with the reported extent and attached to `back_left` and `front_left`. -/
def surface_texture_renew (to_gpu_format : Nat → Nat)
    (swap_chain_data : GHOST_VulkanSwapChainData) (s2 : State) : State :=
  let s3 : State :=
    match s2.ctx.surface_texture_ with
    | some old =>
      { (s2.emit (Event.texture_free old)) with
        ctx := { s2.ctx with surface_texture_ := none } }
    | none => s2
  let tex : VKTexture :=
    { vk_image := s3.images_created
      width := swap_chain_data.extent.width
      height := swap_chain_data.extent.height
      format := to_gpu_format swap_chain_data.surface_format.format }
  let s4 : State :=
    { (s3.emit (Event.texture_create tex)) with
      images_created := s3.images_created + 1
      ctx := { s3.ctx with surface_texture_ := some tex } }
  let s5 := VKFrameBuffer.attachment_set s4.ctx.back_left tex s4
  VKFrameBuffer.attachment_set s5.ctx.front_left tex s5

/-- Source `VKContext::sync_backbuffer`. `swap_chain_data` is what
`GHOST_GetVulkanSwapChainFormat` reports for the window; `to_gpu_format` is the absent
format conversion. -/
def sync_backbuffer (to_gpu_format : Nat → Nat) (cycle_resource_pool : Bool)
    (swap_chain_data : GHOST_VulkanSwapChainData) (s : State) : Except Failure State :=
  match s.ctx.ghost_window_ with
  | none => Except.ok s
  | some _ =>
    match s.ctx.thread_data_ with
    | none => Except.error Failure.bad_optional_access
    | some t =>
      let s1 : State := if cycle_resource_pool then cycle_resource_pool_step t s else s
      if reset_framebuffer swap_chain_data s1 then
        match (if has_active_framebuffer s1 then deactivate_framebuffer s1 else Except.ok s1) with
        | Except.error e => Except.error e
        | Except.ok s2 =>
          let s6 := surface_texture_renew to_gpu_format swap_chain_data s2
          match bind_framebuffer s6.ctx.back_left false s6 with
          | Except.error e => Except.error e
          | Except.ok s7 =>
            Except.ok { s7 with ctx := { s7.ctx with
              swap_chain_format_ := swap_chain_data.surface_format
              vk_extent_ := swap_chain_data.extent } }
      else
        Except.ok s1

/-- Source `VKContext::activate`. `thread` is the calling thread, whose data
`device.current_thread_data()` returns. -/
def activate (to_gpu_format : Nat → Nat) (thread : Nat)
    (swap_chain_data : GHOST_VulkanSwapChainData) (s : State) : Except Failure State :=
  if s.ctx.is_active_ then
    Except.error (Failure.assertion "is_active_ == false")
  else
    let s1 : State := { s with ctx := { s.ctx with thread_data_ := some thread } }
    match (if s1.ctx.render_graph_.isNone then open_render_graph s1 else Except.ok s1) with
    | Except.error e => Except.error e
    | Except.ok s2 =>
      let s3 : State :=
        { s2 with ctx := { s2.ctx with
            imm := some (thread, (s2.device.thread_data thread).resource_pool_get) } }
      let s4 : State := { s3 with ctx := { s3.ctx with is_active_ := true } }
      match sync_backbuffer to_gpu_format false swap_chain_data s4 with
      | Except.error e => Except.error e
      | Except.ok s5 => Except.ok (s5.emit Event.immActivate)

/-- Source `VKContext::deactivate`. -/
def deactivate (s : State) : Except Failure State :=
  match flush_render_graph 0
      VK_PIPELINE_STAGE_NONE VK_NULL_HANDLE VK_NULL_HANDLE VK_NULL_HANDLE s with
  | Except.error e => Except.error e
  | Except.ok r =>
    let s1 := r.2.emit Event.immDeactivate
    Except.ok { s1 with ctx :=
      { s1.ctx with imm := none, thread_data_ := none, is_active_ := false } }

/-- Modelled from the spec: `GPU_debug_group_begin` (in `gpu_debug.cc`, absent): section 6,
pushes a named scope on the debug stack and opens it on the graph; nothing happens when GPU
debugging is off. -/
def GPU_debug_group_begin (name : String) (s : State) : Except Failure State :=
  if s.G_debug_gpu then
    debug_group_begin name
      { s with ctx := { s.ctx with debug_stack := s.ctx.debug_stack ++ [name] } }
  else Except.ok s

/-- Modelled from the spec: `GPU_debug_group_end` (in `gpu_debug.cc`, absent): section 6,
pops the innermost scope from the debug stack and closes it on the graph; nothing happens
when GPU debugging is off. -/
def GPU_debug_group_end (s : State) : Except Failure State :=
  if s.G_debug_gpu then
    if s.ctx.debug_stack = [] then
      Except.error (Failure.assertion "debug_stack.size() > 0")
    else
      debug_group_end { s with ctx := { s.ctx with debug_stack := s.ctx.debug_stack.dropLast } }
  else Except.ok s

/-- The call `render_graph.add_node(info)` on the open graph. -/
def add_node (node : Node) (s : State) : Except Failure State :=
  match s.ctx.render_graph_ with
  | none => Except.error Failure.bad_optional_access
  | some g =>
    let g1 : VKRenderGraph := { g with commands := g.commands ++ [Command.add_node node] }
    Except.ok { s with ctx := { s.ctx with render_graph_ := some g1 } }

/-- The blit description filled in at the top of `swap_buffers_pre_handler`. -/
def blit_image_info (color_attachment : VKTexture)
    (swap_chain_data : GHOST_VulkanSwapChainData) : VKBlitImageNode :=
  { src_image := color_attachment.vk_image
    dst_image := swap_chain_data.image
    filter := VK_FILTER_NEAREST
    srcOffsets0 := { x := 0, y := color_attachment.height, z := 0 }
    srcOffsets1 := { x := color_attachment.width, y := 0, z := 1 }
    srcSubresource :=
      { aspectMask := VK_IMAGE_ASPECT_COLOR_BIT
        mipLevel := 0
        baseArrayLayer := 0
        layerCount := 1 }
    dstOffsets0 := { x := 0, y := 0, z := 0 }
    dstOffsets1 :=
      { x := int32_t swap_chain_data.extent.width
        y := int32_t swap_chain_data.extent.height
        z := 1 }
    dstSubresource :=
      { aspectMask := VK_IMAGE_ASPECT_COLOR_BIT
        mipLevel := 0
        baseArrayLayer := 0
        layerCount := 1 } }

/-- The synchronization description filled in by `swap_buffers_pre_handler`. -/
def synchronization_info (swap_chain_data : GHOST_VulkanSwapChainData) : VKSynchronizationNode :=
  { vk_image := swap_chain_data.image
    vk_image_layout := VK_IMAGE_LAYOUT_PRESENT_SRC_KHR
    vk_image_aspect := VK_IMAGE_ASPECT_COLOR_BIT }

/-- Source `VKContext::swap_buffers_pre_handler`. -/
def swap_buffers_pre_handler (swap_chain_data : GHOST_VulkanSwapChainData) (s : State) :
    Except Failure State :=
  match GPU_debug_group_begin "BackBuffer.Blit" s with
  | Except.error e => Except.error e
  | Except.ok s1 =>
    match s1.ctx.active_fb with
    | none => Except.error Failure.null_dereference
    | some framebuffer =>
      match (s1.framebuffers framebuffer).color_attachment0 with
      | none => Except.error Failure.null_dereference
      | some color_attachment =>
        let blit_image := blit_image_info color_attachment swap_chain_data
        let s2 := s1.emit (Event.resources_add_image swap_chain_data.image)
        let s3 := VKFrameBuffer.rendering_end framebuffer s2
        match flush_render_graph RenderGraphFlushFlags.RENEW_RENDER_GRAPH
            VK_PIPELINE_STAGE_NONE VK_NULL_HANDLE VK_NULL_HANDLE VK_NULL_HANDLE s3 with
        | Except.error e => Except.error e
        | Except.ok r4 =>
          match add_node (Node.blit_image blit_image) r4.2 with
          | Except.error e => Except.error e
          | Except.ok s5 =>
            match GPU_debug_group_end s5 with
            | Except.error e => Except.error e
            | Except.ok s6 =>
              match upload_descriptor_sets s6 with
              | Except.error e => Except.error e
              | Except.ok s7 =>
                match add_node (Node.synchronization (synchronization_info swap_chain_data)) s7 with
                | Except.error e => Except.error e
                | Except.ok s8 =>
                  match flush_render_graph
                      (RenderGraphFlushFlags.SUBMIT ||| RenderGraphFlushFlags.RENEW_RENDER_GRAPH)
                      (VK_PIPELINE_STAGE_COMPUTE_SHADER_BIT ||| VK_PIPELINE_STAGE_TRANSFER_BIT)
                      swap_chain_data.acquire_semaphore
                      swap_chain_data.present_semaphore
                      swap_chain_data.submission_fence s8 with
                  | Except.error e => Except.error e
                  | Except.ok r9 =>
                    Except.ok (r9.2.emit (Event.resources_remove_image swap_chain_data.image))

/-- Source `VKContext::swap_buffers_post_handler`. -/
def swap_buffers_post_handler (to_gpu_format : Nat → Nat)
    (swap_chain_data : GHOST_VulkanSwapChainData) (s : State) : Except Failure State :=
  sync_backbuffer to_gpu_format true swap_chain_data s

end VKContext

/-! ## Observations on traces -/

/-- The `render_graph_submit` calls of a trace with the stamps the device returned, in order. -/
def submit_calls (tr : List Event) : List (SubmitCall × Nat) :=
  tr.filterMap fun e =>
    match e with
    | Event.render_graph_submit call timeline => some (call, timeline)
    | _ => none

/-- The number of `resource_pool_next` calls in a trace. -/
def resource_pool_next_calls (tr : List Event) : Nat :=
  tr.countP fun e =>
    match e with
    | Event.resource_pool_next _ => true
    | _ => false

/-- The textures created and freed in a trace, in order. -/
def texture_events (tr : List Event) : List Event :=
  tr.filter fun e =>
    match e with
    | Event.texture_create _ => true
    | Event.texture_free _ => true
    | _ => false

/-- The arguments `flush_render_graph` passes to the device for graph `g`. -/
def flush_call (flags : RenderGraphFlushFlags)
    (wait_dst_stage_mask wait_semaphore signal_semaphore signal_fence : Nat)
    (g : VKRenderGraph) : SubmitCall :=
  { render_graph := g
    submit_to_device := flags.has RenderGraphFlushFlags.SUBMIT
    wait_for_completion := flags.has RenderGraphFlushFlags.WAIT_FOR_COMPLETION
    wait_dst_stage_mask := wait_dst_stage_mask
    wait_semaphore := wait_semaphore
    signal_semaphore := signal_semaphore
    signal_fence := signal_fence }

/-- The state in which the `reset_framebuffer` branch of `sync_backbuffer` (lines 73-97) ends
when entered in `s1`, all its calls having succeeded. -/
def backbuffer_reset (to_gpu_format : Nat → Nat)
    (swap_chain_data : GHOST_VulkanSwapChainData) (s1 : State) : State :=
  let s2 : State :=
    { VKContext.flush_rendering_end s1 with ctx := { s1.ctx with active_fb := none } }
  let s6 := VKContext.surface_texture_renew to_gpu_format swap_chain_data s2
  let fb := s6.ctx.back_left
  let s6b : State :=
    { (s6.emit (Event.bind fb false)) with ctx := { s6.ctx with active_fb := some fb } }
  let s7 := VKFrameBuffer.rendering_reset fb
    (VKFrameBuffer.update_srgb fb (VKFrameBuffer.update_size fb s6b))
  { s7 with ctx := { s7.ctx with
      swap_chain_format_ := swap_chain_data.surface_format
      vk_extent_ := swap_chain_data.extent } }

/-! ## Sequences of activation calls -/

/-- A call on the activation interface of the context: `activate()` made by `thread` while
the window reports `swap_chain_data`, `flush()`, or `deactivate()`. -/
inductive Call where
  | activate (thread : Nat) (swap_chain_data : GHOST_VulkanSwapChainData)
  | flush
  | deactivate
deriving DecidableEq

/-- Perform one call. -/
def Call.run (to_gpu_format : Nat → Nat) : Call → State → Except Failure State
  | Call.activate thread swap_chain_data, s =>
    VKContext.activate to_gpu_format thread swap_chain_data s
  | Call.flush, s => VKContext.flush s
  | Call.deactivate, s => VKContext.deactivate s

/-- The precondition of a call: `activate` only while inactive, `flush` and `deactivate`
only while active. -/
def Call.precondition : Call → State → Bool
  | Call.activate _ _, s => !s.ctx.is_active_
  | Call.flush, s => s.ctx.is_active_
  | Call.deactivate, s => s.ctx.is_active_

/-- Every call of the sequence meets its precondition in the state in which it is made
(nothing is asked of calls that would follow a failed one). -/
def meets_preconditions (to_gpu_format : Nat → Nat) : List Call → State → Bool
  | [], _ => true
  | c :: cs, s =>
    c.precondition s &&
      match c.run to_gpu_format s with
      | Except.ok s1 => meets_preconditions to_gpu_format cs s1
      | Except.error _ => true

/-- Perform the calls in order; the result lists the state after each call. -/
def run_calls (to_gpu_format : Nat → Nat) : List Call → State → Except Failure (List State)
  | [], _ => Except.ok []
  | c :: cs, s =>
    match c.run to_gpu_format s with
    | Except.error e => Except.error e
    | Except.ok s1 =>
      match run_calls to_gpu_format cs s1 with
      | Except.error e => Except.error e
      | Except.ok rest => Except.ok (s1 :: rest)

/-- The three facts of the context invariant agree: active, bound to a thread, graph open. -/
def VKContext.agree (c : VKContext) : Prop :=
  (c.is_active_ = true ↔ c.thread_data_.isSome = true) ∧
  (c.thread_data_.isSome = true ↔ c.render_graph_.isSome = true)

/-- What holds after a call: no thread and no graph after `deactivate`, both after
`activate` and `flush`. -/
def Call.outcome : Call → VKContext → Prop
  | Call.deactivate, c => c.thread_data_ = none ∧ c.render_graph_ = none
  | Call.activate _ _, c => c.thread_data_.isSome = true ∧ c.render_graph_.isSome = true
  | Call.flush, c => c.thread_data_.isSome = true ∧ c.render_graph_.isSome = true

/-- A device on which nothing has happened yet: every thread has a ring of `ring_size`
resource pools with slot 0 current. -/
def VKDevice.initial (ring_size : Nat) : VKDevice :=
  { thread_data := fun _ => { resource_pool_index := 0, resource_pools_count := ring_size }
    render_graphs_created := 0
    timeline_value_ := 0 }

/-- The state right after the context has been constructed on an unused device: idle
frame-buffers without attachments, nothing allocated, empty trace. -/
def State.initial (ghost_window : Option Nat) (ring_size : Nat) (debug_gpu : Bool) : State :=
  { ctx := VKContext.new ghost_window 0 1
    device := VKDevice.initial ring_size
    framebuffers := fun _ => { is_rendering_ := false, color_attachment0 := none }
    images_created := 0
    G_debug_gpu := debug_gpu
    trace := [] }

/-- Identity stand-in for the format conversion in examples. -/
def to_gpu_format_id (format : Nat) : Nat := format

/-- Swap-chain data of an 800x600 surface. -/
def swap_chain_800x600 : GHOST_VulkanSwapChainData :=
  { image := 7
    surface_format := { format := 44, colorSpace := 0 }
    extent := { width := 800, height := 600 }
    submission_fence := 11
    acquire_semaphore := 12
    present_semaphore := 13 }

/-- Swap-chain data of a 1920x1080 surface. -/
def swap_chain_1920x1080 : GHOST_VulkanSwapChainData :=
  { image := 8
    surface_format := { format := 44, colorSpace := 0 }
    extent := { width := 1920, height := 1080 }
    submission_fence := 11
    acquire_semaphore := 12
    present_semaphore := 13 }

/-- An active context without a window (an off-screen context): the state in which
`activate()` on thread 0 leaves a newly constructed context on an unused device with a ring
of two resource pools. -/
def State.offscreen_active : State :=
  { ctx :=
      { ghost_window_ := none
        is_active_ := true
        thread_data_ := some 0
        render_graph_ := some { id := 0, commands := [] }
        debug_stack := []
        imm := some (0, 0)
        back_left := 0
        front_left := 1
        active_fb := some 0
        surface_texture_ := none
        swap_chain_format_ := { format := 0, colorSpace := 0 }
        vk_extent_ := { width := 0, height := 0 } }
    device :=
      { thread_data := fun _ => { resource_pool_index := 0, resource_pools_count := 2 }
        render_graphs_created := 1
        timeline_value_ := 0 }
    framebuffers := fun _ => { is_rendering_ := false, color_attachment0 := none }
    images_created := 0
    G_debug_gpu := false
    trace := [Event.render_graph_new 0, Event.immActivate] }

/-- A graph on which the debug group "Frame" has been opened and one work node recorded. -/
def frame_graph : VKRenderGraph :=
  { id := 0, commands := [Command.debug_group_begin "Frame", Command.add_node (Node.other 5)] }

/-- An active window context in the middle of a frame: bound to thread 0, one debug group
open, `back_left` active and rendering into an 800x600 surface texture. -/
def State.window_active : State :=
  { ctx :=
      { ghost_window_ := some 1
        is_active_ := true
        thread_data_ := some 0
        render_graph_ := some frame_graph
        debug_stack := ["Frame"]
        imm := some (0, 0)
        back_left := 0
        front_left := 1
        active_fb := some 0
        surface_texture_ := some { vk_image := 0, width := 800, height := 600, format := 44 }
        swap_chain_format_ := { format := 44, colorSpace := 0 }
        vk_extent_ := { width := 800, height := 600 } }
    device :=
      { thread_data := fun _ => { resource_pool_index := 0, resource_pools_count := 2 }
        render_graphs_created := 1
        timeline_value_ := 0 }
    framebuffers := fun fb =>
      if fb = 0 then
        { is_rendering_ := true
          color_attachment0 := some { vk_image := 0, width := 800, height := 600, format := 44 } }
      else
        { is_rendering_ := false
          color_attachment0 := some { vk_image := 0, width := 800, height := 600, format := 44 } }
    images_created := 1
    G_debug_gpu := true
    trace := [] }

/-! ## Bit utilities exercised by `BLI_math_bits_test.cc` -/

/-- Number of zero bits above the highest set bit among the low `w` bits of `a`, scanning
from bit `w - 1` downwards. -/
def leading_zeros : Nat → Nat → Nat
  | 0, _ => 0
  | w + 1, a => if a.testBit w then 0 else 1 + leading_zeros w a

/-- Modelled from the spec: `bitscan_reverse_uint` is defined in `BLI_math_bits.h`, which is
not among the sources; the spec names it a reverse bit-scan and the test fixes its values:
the position of the highest set bit of a 32-bit value, counted from the most significant
bit. -/
def bitscan_reverse_uint (a : Nat) : Nat := leading_zeros 32 a

/-- Modelled from the spec: `bitscan_reverse_clear_uint(&a)` is defined in `BLI_math_bits.h`,
which is not among the sources; it returns the reverse bit-scan of `a` and clears that bit,
`a &= ~(0x80000000 >> i)`. The result pairs the return value with the new `a`. -/
def bitscan_reverse_clear_uint (a : Nat) : Nat × Nat :=
  let i := bitscan_reverse_uint a
  (i, a &&& (0xFFFFFFFF ^^^ (0x80000000 >>> i)))

/-- The value of `a` after one `bitscan_reverse_clear_uint` call. -/
def clear_highest (a : Nat) : Nat := (bitscan_reverse_clear_uint a).2

/-- The results of calling `bitscan_reverse_clear_uint` on `a` until it is zero (at most
`n` calls): each entry is the returned position and the value of `a` after the call. -/
def bitscan_all : Nat → Nat → List (Nat × Nat)
  | 0, _ => []
  | n + 1, a =>
    if a = 0 then []
    else bitscan_reverse_clear_uint a :: bitscan_all n (bitscan_reverse_clear_uint a).2

/-- Bit counting loop over the low `w` bits of `a`: add the lowest bit, shift right. -/
def count_bits : Nat → Nat → Nat
  | 0, _ => 0
  | w + 1, a => a % 2 + count_bits w (a / 2)

/-- The number of positions below `w` at which `a` has a 1 bit. -/
def set_bits (w a : Nat) : Nat := (List.range w).countP (fun k => a.testBit k)

/-- Modelled from the spec: `count_bits_i` is defined in `BLI_math_bits.h`, which is not
among the sources; the spec names it a population count. The argument is a 32-bit `int`,
read through its two-complement representation `x mod 2^32`. -/
def count_bits_i (x : Int) : Nat := count_bits 32 (x % 2 ^ 32).toNat

/-- Modelled from the spec: `count_bits_uint64` is defined in `BLI_math_bits.h`, which is not
among the sources; the spec names it a population count, here of a 64-bit unsigned value. -/
def count_bits_uint64 (a : Nat) : Nat := count_bits 64 a

/-- The conversion of an `int` argument to `uint64_t`. -/
def int_to_uint64 (x : Int) : Nat := (x % 2 ^ 64).toNat

/-! ## Graphics context: lemmas -/

open VKContext

theorem replay_debug_stack_eq (l : List String) (s : State) (g : VKRenderGraph)
    (hg : s.ctx.render_graph_ = some g) :
    replay_debug_stack l s = Except.ok { s with ctx := { s.ctx with
      render_graph_ := some ⟨g.id, g.commands ++ l.map Command.debug_group_begin⟩ } } := by
  induction l generalizing s g with
  | nil =>
    cases s with
    | mk ctx device framebuffers images_created G_debug_gpu trace =>
      cases ctx
      simp only at hg
      subst hg
      simp [replay_debug_stack]
  | cons x xs ih =>
    simp only [replay_debug_stack, debug_group_begin, hg]
    rw [ih _ _ rfl]
    simp

theorem open_render_graph_eq (s : State) :
    open_render_graph s = Except.ok { s with
      ctx := { s.ctx with
        render_graph_ :=
          some ⟨s.device.render_graphs_created, s.ctx.debug_stack.map Command.debug_group_begin⟩ }
      device := { s.device with render_graphs_created := s.device.render_graphs_created + 1 }
      trace := s.trace ++ [Event.render_graph_new s.device.render_graphs_created] } := by
  unfold open_render_graph
  simp only [VKDevice.render_graph_new]
  rw [replay_debug_stack_eq _ _ _ rfl]
  simp

theorem open_groups_begin (l stack : List String) :
    open_groups stack (l.map Command.debug_group_begin) = stack ++ l := by
  induction l generalizing stack with
  | nil => simp [open_groups]
  | cons x xs ih => simp [open_groups, ih]

theorem open_groups_append (stack : List String) (cs ds : List Command) :
    open_groups stack (cs ++ ds) = open_groups (open_groups stack cs) ds := by
  induction cs generalizing stack with
  | nil => simp [open_groups]
  | cons c cs ih => cases c <;> simp [open_groups, ih]

theorem flush_rendering_end_ctx (s : State) : (flush_rendering_end s).ctx = s.ctx := by
  unfold flush_rendering_end active_framebuffer_get
  cases s.ctx.active_fb with
  | none => rfl
  | some fb =>
    by_cases h : (s.framebuffers fb).is_rendering_ = true
    · simp [h, VKFrameBuffer.rendering_end, State.emit, State.set_framebuffer]
    · simp [h]

theorem flush_rendering_end_device (s : State) : (flush_rendering_end s).device = s.device := by
  unfold flush_rendering_end active_framebuffer_get
  cases s.ctx.active_fb with
  | none => rfl
  | some fb =>
    by_cases h : (s.framebuffers fb).is_rendering_ = true
    · simp [h, VKFrameBuffer.rendering_end, State.emit, State.set_framebuffer]
    · simp [h]

theorem flush_rendering_end_misc (s : State) :
    (flush_rendering_end s).images_created = s.images_created ∧
    (flush_rendering_end s).G_debug_gpu = s.G_debug_gpu := by
  unfold flush_rendering_end active_framebuffer_get
  cases s.ctx.active_fb with
  | none => exact ⟨rfl, rfl⟩
  | some fb =>
    by_cases h : (s.framebuffers fb).is_rendering_ = true
    · simp [h, VKFrameBuffer.rendering_end, State.emit, State.set_framebuffer]
    · simp [h]

theorem flush_rendering_end_trace (s : State) :
    (flush_rendering_end s).trace = s.trace ++
      (match s.ctx.active_fb with
       | some fb => if (s.framebuffers fb).is_rendering_ then [Event.rendering_end fb] else []
       | none => []) := by
  unfold flush_rendering_end active_framebuffer_get
  cases s.ctx.active_fb with
  | none => simp
  | some fb =>
    by_cases h : (s.framebuffers fb).is_rendering_ = true
    · simp [h, VKFrameBuffer.rendering_end, State.emit, State.set_framebuffer]
    · simp [h]

theorem render_graph_submit_created (device : VKDevice) (call : SubmitCall) :
    (device.render_graph_submit call).2.render_graphs_created = device.render_graphs_created := by
  unfold VKDevice.render_graph_submit
  split <;> rfl

theorem render_graph_submit_thread_data (device : VKDevice) (call : SubmitCall) :
    (device.render_graph_submit call).2.thread_data = device.thread_data := by
  unfold VKDevice.render_graph_submit
  split <;> rfl

theorem flush_render_graph_eq (flags : RenderGraphFlushFlags) (m ws ss f : Nat) (s : State) (t : Nat) (g : VKRenderGraph)
    (ht : s.ctx.thread_data_ = some t) (hg : s.ctx.render_graph_ = some g) :
    flush_render_graph flags m ws ss f s =
      Except.ok ((s.device.render_graph_submit (flush_call flags m ws ss f g)).1,
        if flags.has RenderGraphFlushFlags.RENEW_RENDER_GRAPH then
          { flush_rendering_end s with
            ctx := { s.ctx with
              render_graph_ :=
                some ⟨s.device.render_graphs_created,
                  s.ctx.debug_stack.map Command.debug_group_begin⟩ }
            device := { (s.device.render_graph_submit (flush_call flags m ws ss f g)).2 with
              render_graphs_created := s.device.render_graphs_created + 1 }
            trace := (flush_rendering_end s).trace ++
              [Event.upload_descriptor_sets t (s.device.thread_data t).resource_pool_get,
               Event.render_graph_submit (flush_call flags m ws ss f g)
                 (s.device.render_graph_submit (flush_call flags m ws ss f g)).1,
               Event.render_graph_new s.device.render_graphs_created] }
        else
          { flush_rendering_end s with
            ctx := { s.ctx with render_graph_ := none }
            device := (s.device.render_graph_submit (flush_call flags m ws ss f g)).2
            trace := (flush_rendering_end s).trace ++
              [Event.upload_descriptor_sets t (s.device.thread_data t).resource_pool_get,
               Event.render_graph_submit (flush_call flags m ws ss f g)
                 (s.device.render_graph_submit (flush_call flags m ws ss f g)).1] }) := by
  have hc := flush_rendering_end_ctx s
  have hd := flush_rendering_end_device s
  unfold flush_render_graph
  simp only [upload_descriptor_sets, hc, hd, ht, hg, State.emit]
  by_cases hr : RenderGraphFlushFlags.has flags RenderGraphFlushFlags.RENEW_RENDER_GRAPH = true
  · simp only [hr, if_true, open_render_graph_eq]
    simp [flush_call, hc, render_graph_submit_created]
  · simp only [hr]
    simp [flush_call, hc]

theorem deactivate_if_active_eq (s : State) :
    (if has_active_framebuffer s then deactivate_framebuffer s else Except.ok s) =
      Except.ok { flush_rendering_end s with ctx := { s.ctx with active_fb := none } } := by
  cases s with
  | mk ctx device framebuffers images_created G_debug_gpu trace =>
    cases ctx with
    | mk gw ia td rg ds imm bl fl afb st scf ext =>
      cases afb with
      | none =>
        simp [has_active_framebuffer, active_framebuffer_get, flush_rendering_end]
      | some fb =>
        by_cases h : (framebuffers fb).is_rendering_ = true
        · simp [has_active_framebuffer, active_framebuffer_get, flush_rendering_end,
            deactivate_framebuffer, h, VKFrameBuffer.rendering_end, State.emit,
            State.set_framebuffer]
        · simp [has_active_framebuffer, active_framebuffer_get, flush_rendering_end,
            deactivate_framebuffer, h]

theorem activate_framebuffer_eq (fb : Nat) (s : State) :
    activate_framebuffer fb s =
      Except.ok (VKFrameBuffer.rendering_reset fb (VKFrameBuffer.update_srgb fb
        (VKFrameBuffer.update_size fb
          { flush_rendering_end s with ctx := { s.ctx with active_fb := some fb } }))) := by
  unfold activate_framebuffer
  rw [deactivate_if_active_eq]

theorem sync_backbuffer_eq (tgf : Nat → Nat) (cycle : Bool) (scd : GHOST_VulkanSwapChainData)
    (s : State) (w t : Nat) (hw : s.ctx.ghost_window_ = some w) (ht : s.ctx.thread_data_ = some t) :
    sync_backbuffer tgf cycle scd s =
      Except.ok
        (if reset_framebuffer scd (if cycle then cycle_resource_pool_step t s else s) then
          backbuffer_reset tgf scd (if cycle then cycle_resource_pool_step t s else s)
        else (if cycle then cycle_resource_pool_step t s else s)) := by
  unfold sync_backbuffer
  simp only [hw, ht]
  generalize (if cycle = true then cycle_resource_pool_step t s else s) = s1
  by_cases hr : reset_framebuffer scd s1 = true
  · simp only [hr, if_true, deactivate_if_active_eq, bind_framebuffer, activate_framebuffer_eq]
    cases hst : s1.ctx.surface_texture_ <;>
    simp [backbuffer_reset, surface_texture_renew, hst, VKFrameBuffer.attachment_set, State.emit,
      State.set_framebuffer, VKFrameBuffer.rendering_reset, VKFrameBuffer.update_srgb,
      VKFrameBuffer.update_size, flush_rendering_end_ctx, flush_rendering_end,
      active_framebuffer_get]
  · simp only [hr]
    simp

theorem sync_backbuffer_no_window (tgf : Nat → Nat) (cycle : Bool)
    (scd : GHOST_VulkanSwapChainData) (s : State) (hw : s.ctx.ghost_window_ = none) :
    sync_backbuffer tgf cycle scd s = Except.ok s := by
  simp [sync_backbuffer, hw]

theorem flush_rendering_end_next_calls (s : State) :
    resource_pool_next_calls (flush_rendering_end s).trace = resource_pool_next_calls s.trace := by
  rw [flush_rendering_end_trace]
  cases s.ctx.active_fb with
  | none => simp [resource_pool_next_calls]
  | some fb => by_cases h : (s.framebuffers fb).is_rendering_ = true <;>
      simp [resource_pool_next_calls, h]

theorem flush_rendering_end_submit_calls (s : State) :
    submit_calls (flush_rendering_end s).trace = submit_calls s.trace := by
  rw [flush_rendering_end_trace]
  cases s.ctx.active_fb with
  | none => simp [submit_calls]
  | some fb => by_cases h : (s.framebuffers fb).is_rendering_ = true <;>
      simp [submit_calls, h]

theorem flush_rendering_end_texture_events (s : State) :
    texture_events (flush_rendering_end s).trace = texture_events s.trace := by
  rw [flush_rendering_end_trace]
  cases s.ctx.active_fb with
  | none => simp [texture_events]
  | some fb => by_cases h : (s.framebuffers fb).is_rendering_ = true <;>
      simp [texture_events, h]

theorem backbuffer_reset_frame (tgf : Nat → Nat) (scd : GHOST_VulkanSwapChainData) (s : State) :
    (backbuffer_reset tgf scd s).ctx.is_active_ = s.ctx.is_active_ ∧
    (backbuffer_reset tgf scd s).ctx.thread_data_ = s.ctx.thread_data_ ∧
    (backbuffer_reset tgf scd s).ctx.render_graph_ = s.ctx.render_graph_ ∧
    (backbuffer_reset tgf scd s).ctx.debug_stack = s.ctx.debug_stack ∧
    (backbuffer_reset tgf scd s).ctx.ghost_window_ = s.ctx.ghost_window_ ∧
    (backbuffer_reset tgf scd s).ctx.back_left = s.ctx.back_left ∧
    (backbuffer_reset tgf scd s).ctx.front_left = s.ctx.front_left ∧
    (backbuffer_reset tgf scd s).ctx.imm = s.ctx.imm ∧
    (backbuffer_reset tgf scd s).G_debug_gpu = s.G_debug_gpu ∧
    (backbuffer_reset tgf scd s).device = s.device ∧
    resource_pool_next_calls (backbuffer_reset tgf scd s).trace =
      resource_pool_next_calls s.trace ∧
    submit_calls (backbuffer_reset tgf scd s).trace = submit_calls s.trace := by
  cases hst : s.ctx.surface_texture_ <;>
  simp [backbuffer_reset, surface_texture_renew, hst, VKFrameBuffer.attachment_set, State.emit,
    State.set_framebuffer, VKFrameBuffer.rendering_reset, VKFrameBuffer.update_srgb,
    VKFrameBuffer.update_size, flush_rendering_end_device, resource_pool_next_calls,
    submit_calls, List.countP_append, List.filterMap_append,
    flush_rendering_end_misc] <;>
  exact ⟨flush_rendering_end_next_calls s, flush_rendering_end_submit_calls s⟩

theorem sync_backbuffer_frame (tgf : Nat → Nat) (cycle : Bool) (scd : GHOST_VulkanSwapChainData)
    (s : State) (w t : Nat) (hw : s.ctx.ghost_window_ = some w) (ht : s.ctx.thread_data_ = some t) :
    ∃ s1, sync_backbuffer tgf cycle scd s = Except.ok s1 ∧
      s1.ctx.is_active_ = s.ctx.is_active_ ∧
      s1.ctx.thread_data_ = s.ctx.thread_data_ ∧
      s1.ctx.render_graph_ = s.ctx.render_graph_ ∧
      s1.ctx.debug_stack = s.ctx.debug_stack ∧
      s1.ctx.ghost_window_ = s.ctx.ghost_window_ ∧
      s1.ctx.back_left = s.ctx.back_left ∧
      s1.ctx.front_left = s.ctx.front_left ∧
      s1.G_debug_gpu = s.G_debug_gpu ∧
      s1.ctx.imm = (if cycle then
        some (t, (s.device.thread_data t).resource_pool_next.resource_pool_get) else s.ctx.imm) ∧
      s1.device.thread_data = (if cycle then
        Function.update s.device.thread_data t (s.device.thread_data t).resource_pool_next
        else s.device.thread_data) ∧
      s1.device.render_graphs_created = s.device.render_graphs_created ∧
      s1.device.timeline_value_ = s.device.timeline_value_ ∧
      resource_pool_next_calls s1.trace =
        resource_pool_next_calls s.trace + (if cycle then 1 else 0) ∧
      submit_calls s1.trace = submit_calls s.trace := by
  rw [sync_backbuffer_eq tgf cycle scd s w t hw ht]
  refine ⟨_, rfl, ?_⟩
  have hs1 : ∀ s1 : State, s1 = (if cycle = true then cycle_resource_pool_step t s else s) →
      s1.ctx.is_active_ = s.ctx.is_active_ ∧
      s1.ctx.thread_data_ = s.ctx.thread_data_ ∧
      s1.ctx.render_graph_ = s.ctx.render_graph_ ∧
      s1.ctx.debug_stack = s.ctx.debug_stack ∧
      s1.ctx.ghost_window_ = s.ctx.ghost_window_ ∧
      s1.ctx.back_left = s.ctx.back_left ∧
      s1.ctx.front_left = s.ctx.front_left ∧
      s1.G_debug_gpu = s.G_debug_gpu ∧
      s1.ctx.imm = (if cycle then
        some (t, (s.device.thread_data t).resource_pool_next.resource_pool_get) else s.ctx.imm) ∧
      s1.device.thread_data = (if cycle then
        Function.update s.device.thread_data t (s.device.thread_data t).resource_pool_next
        else s.device.thread_data) ∧
      s1.device.render_graphs_created = s.device.render_graphs_created ∧
      s1.device.timeline_value_ = s.device.timeline_value_ ∧
      resource_pool_next_calls s1.trace =
        resource_pool_next_calls s.trace + (if cycle then 1 else 0) ∧
      submit_calls s1.trace = submit_calls s.trace := by
    intro s1 h1
    subst h1
    cases cycle <;>
    simp [cycle_resource_pool_step, resource_pool_next_calls, submit_calls,
      List.countP_append, List.filterMap_append]
  generalize (if cycle = true then cycle_resource_pool_step t s else s) = s1 at hs1 ⊢
  have h := hs1 s1 rfl
  by_cases hr : reset_framebuffer scd s1 = true
  · simp only [hr, if_true]
    obtain ⟨b1, b2, b3, b4, b5, b6, b7, b8, b9, b10, b11, b12⟩ := backbuffer_reset_frame tgf scd s1
    obtain ⟨a1, a2, a3, a4, a5, a6, a7, a8, a9, a10, a11, a12, a13, a14⟩ := h
    rw [b1, b2, b3, b4, b5, b6, b7, b8, b9, b10, b11, b12]
    exact ⟨a1, a2, a3, a4, a5, a6, a7, a8, a9, a10, a11, a12, a13, a14⟩
  · simp only [hr]
    exact h

theorem sync_backbuffer_false_frame (tgf : Nat → Nat) (scd : GHOST_VulkanSwapChainData)
    (s : State) (t : Nat) (ht : s.ctx.thread_data_ = some t) :
    ∃ s1, sync_backbuffer tgf false scd s = Except.ok s1 ∧
      s1.ctx.is_active_ = s.ctx.is_active_ ∧
      s1.ctx.thread_data_ = s.ctx.thread_data_ ∧
      s1.ctx.render_graph_ = s.ctx.render_graph_ ∧
      s1.ctx.debug_stack = s.ctx.debug_stack ∧
      s1.ctx.ghost_window_ = s.ctx.ghost_window_ ∧
      s1.G_debug_gpu = s.G_debug_gpu ∧
      s1.ctx.imm = s.ctx.imm ∧
      s1.device.thread_data = s.device.thread_data ∧
      s1.device.render_graphs_created = s.device.render_graphs_created ∧
      resource_pool_next_calls s1.trace = resource_pool_next_calls s.trace ∧
      submit_calls s1.trace = submit_calls s.trace := by
  cases hw : s.ctx.ghost_window_ with
  | none =>
    rw [sync_backbuffer_no_window tgf false scd s hw]
    exact ⟨s, rfl, rfl, rfl, rfl, rfl, hw, rfl, rfl, rfl, rfl, rfl, rfl⟩
  | some w =>
    obtain ⟨s1, h0, a1, a2, a3, a4, a5, _, _, a8, a9, a10, a11, _, a13, a14⟩ :=
      sync_backbuffer_frame tgf false scd s w t hw ht
    refine ⟨s1, h0, a1, a2, a3, a4, ?_, a8, ?_, ?_, a11, ?_, a14⟩
    · rw [a5, hw]
    · simpa using a9
    · simpa using a10
    · simpa using a13

theorem activate_frame (tgf : Nat → Nat) (thread : Nat) (scd : GHOST_VulkanSwapChainData)
    (s : State) (hi : s.ctx.is_active_ = false) :
    ∃ s1, activate tgf thread scd s = Except.ok s1 ∧
      s1.ctx.is_active_ = true ∧
      s1.ctx.thread_data_ = some thread ∧
      s1.ctx.render_graph_ =
        (match s.ctx.render_graph_ with
         | some g => some g
         | none => some ⟨s.device.render_graphs_created,
             s.ctx.debug_stack.map Command.debug_group_begin⟩) ∧
      s1.ctx.debug_stack = s.ctx.debug_stack ∧
      s1.ctx.ghost_window_ = s.ctx.ghost_window_ ∧
      s1.ctx.imm = some (thread, (s.device.thread_data thread).resource_pool_get) ∧
      s1.device.thread_data = s.device.thread_data ∧
      resource_pool_next_calls s1.trace = resource_pool_next_calls s.trace ∧
      submit_calls s1.trace = submit_calls s.trace := by
  unfold activate
  simp only [hi, Bool.false_eq_true, if_false]
  cases hg : s.ctx.render_graph_ with
  | none =>
    simp only [Option.isNone_none, if_true, open_render_graph_eq]
    obtain ⟨s5, h0, a1, a2, a3, a4, a5, a6, a7, a8, a9, a10, a11⟩ :=
      sync_backbuffer_false_frame tgf scd
        { ctx :=
            { ghost_window_ := s.ctx.ghost_window_, is_active_ := true,
              thread_data_ := some thread,
              render_graph_ := some ⟨s.device.render_graphs_created,
                s.ctx.debug_stack.map Command.debug_group_begin⟩,
              debug_stack := s.ctx.debug_stack,
              imm := some (thread, (s.device.thread_data thread).resource_pool_get),
              back_left := s.ctx.back_left, front_left := s.ctx.front_left,
              active_fb := s.ctx.active_fb, surface_texture_ := s.ctx.surface_texture_,
              swap_chain_format_ := s.ctx.swap_chain_format_, vk_extent_ := s.ctx.vk_extent_ },
          device := { s.device with render_graphs_created := s.device.render_graphs_created + 1 },
          framebuffers := s.framebuffers, images_created := s.images_created,
          G_debug_gpu := s.G_debug_gpu,
          trace := s.trace ++ [Event.render_graph_new s.device.render_graphs_created] }
        thread rfl
    simp only [h0]
    refine ⟨_, rfl, ?_⟩
    simp only [State.emit, a1, a2, a3, a4, a5, a7, a8]
    simp [resource_pool_next_calls, submit_calls, List.countP_append, List.filterMap_append] at a10 a11 ⊢
    exact ⟨a10, a11⟩
  | some g =>
    simp only [Option.isNone_some, Bool.false_eq_true, if_false]
    obtain ⟨s5, h0, a1, a2, a3, a4, a5, a6, a7, a8, a9, a10, a11⟩ :=
      sync_backbuffer_false_frame tgf scd
        { ctx :=
            { ghost_window_ := s.ctx.ghost_window_, is_active_ := true,
              thread_data_ := some thread,
              render_graph_ := some g,
              debug_stack := s.ctx.debug_stack,
              imm := some (thread, (s.device.thread_data thread).resource_pool_get),
              back_left := s.ctx.back_left, front_left := s.ctx.front_left,
              active_fb := s.ctx.active_fb, surface_texture_ := s.ctx.surface_texture_,
              swap_chain_format_ := s.ctx.swap_chain_format_, vk_extent_ := s.ctx.vk_extent_ },
          device := s.device,
          framebuffers := s.framebuffers, images_created := s.images_created,
          G_debug_gpu := s.G_debug_gpu,
          trace := s.trace }
        thread rfl
    simp only [h0]
    refine ⟨_, rfl, ?_⟩
    simp only [State.emit, a1, a2, a3, a4, a5, a7, a8, hg]
    simp [resource_pool_next_calls, submit_calls, List.countP_append, List.filterMap_append] at a10 a11 ⊢
    exact ⟨a10, a11⟩

theorem flush_frame (s : State) (t : Nat) (g : VKRenderGraph)
    (ht : s.ctx.thread_data_ = some t) (hg : s.ctx.render_graph_ = some g) :
    ∃ s1, flush s = Except.ok s1 ∧
      s1.ctx.is_active_ = s.ctx.is_active_ ∧
      s1.ctx.thread_data_ = s.ctx.thread_data_ ∧
      s1.ctx.render_graph_ = some ⟨s.device.render_graphs_created,
        s.ctx.debug_stack.map Command.debug_group_begin⟩ ∧
      s1.ctx.debug_stack = s.ctx.debug_stack ∧
      s1.ctx.imm = s.ctx.imm ∧
      s1.device.thread_data = s.device.thread_data ∧
      resource_pool_next_calls s1.trace = resource_pool_next_calls s.trace ∧
      submit_calls s1.trace = submit_calls s.trace ++
        [(flush_call RenderGraphFlushFlags.RENEW_RENDER_GRAPH VK_PIPELINE_STAGE_NONE
            VK_NULL_HANDLE VK_NULL_HANDLE VK_NULL_HANDLE g,
          (s.device.render_graph_submit (flush_call RenderGraphFlushFlags.RENEW_RENDER_GRAPH
            VK_PIPELINE_STAGE_NONE VK_NULL_HANDLE VK_NULL_HANDLE VK_NULL_HANDLE g)).1)] ∧
      s1.device.timeline_value_ = s.device.timeline_value_ := by
  unfold flush
  rw [flush_render_graph_eq _ _ _ _ _ s t g ht hg]
  have hr : RenderGraphFlushFlags.has RenderGraphFlushFlags.RENEW_RENDER_GRAPH
      RenderGraphFlushFlags.RENEW_RENDER_GRAPH = true := by decide
  simp only [hr, if_true]
  refine ⟨_, rfl, rfl, ht.symm ▸ rfl, rfl, rfl, rfl, ?_, ?_, ?_, ?_⟩
  · simp [render_graph_submit_thread_data]
  · simp [resource_pool_next_calls, List.countP_append]
    exact flush_rendering_end_next_calls s
  · simp [submit_calls, List.filterMap_append]
    exact flush_rendering_end_submit_calls s
  · simp [flush_call, VKDevice.render_graph_submit, RenderGraphFlushFlags.has,
      RenderGraphFlushFlags.SUBMIT, RenderGraphFlushFlags.RENEW_RENDER_GRAPH]

theorem deactivate_frame (s : State) (t : Nat) (g : VKRenderGraph)
    (ht : s.ctx.thread_data_ = some t) (hg : s.ctx.render_graph_ = some g) :
    ∃ s1, deactivate s = Except.ok s1 ∧
      s1.ctx.is_active_ = false ∧
      s1.ctx.thread_data_ = none ∧
      s1.ctx.render_graph_ = none ∧
      s1.ctx.debug_stack = s.ctx.debug_stack ∧
      s1.ctx.imm = none ∧
      s1.device.thread_data = s.device.thread_data ∧
      resource_pool_next_calls s1.trace = resource_pool_next_calls s.trace ∧
      submit_calls s1.trace = submit_calls s.trace ++
        [(flush_call 0 VK_PIPELINE_STAGE_NONE VK_NULL_HANDLE VK_NULL_HANDLE VK_NULL_HANDLE g,
          (s.device.render_graph_submit (flush_call 0
            VK_PIPELINE_STAGE_NONE VK_NULL_HANDLE VK_NULL_HANDLE VK_NULL_HANDLE g)).1)] ∧
      s1.device.timeline_value_ = s.device.timeline_value_ := by
  unfold deactivate
  rw [flush_render_graph_eq _ _ _ _ _ s t g ht hg]
  have hr : RenderGraphFlushFlags.has 0 RenderGraphFlushFlags.RENEW_RENDER_GRAPH = false := by
    decide
  simp only [hr, Bool.false_eq_true, if_false]
  refine ⟨_, rfl, rfl, rfl, rfl, rfl, rfl, ?_, ?_, ?_, ?_⟩
  · simp [State.emit, render_graph_submit_thread_data]
  · simp [State.emit, resource_pool_next_calls, List.countP_append]
    exact flush_rendering_end_next_calls s
  · simp [State.emit, submit_calls, List.filterMap_append]
    exact flush_rendering_end_submit_calls s
  · simp [State.emit, flush_call, VKDevice.render_graph_submit, RenderGraphFlushFlags.has,
      RenderGraphFlushFlags.SUBMIT]

theorem run_calls_invariant (tgf : Nat → Nat) (calls : List Call) (s : State)
    (hagree : s.ctx.agree) (hpre : meets_preconditions tgf calls s = true) :
    ∃ states, run_calls tgf calls s = Except.ok states ∧
      List.Forall₂ (fun c s1 => s1.ctx.agree ∧ c.outcome s1.ctx) calls states := by
  induction calls generalizing s with
  | nil => exact ⟨[], rfl, List.Forall₂.nil⟩
  | cons c cs ih =>
    unfold meets_preconditions at hpre
    rw [Bool.and_eq_true] at hpre
    obtain ⟨hp, hrest⟩ := hpre
    have step : ∃ s1, c.run tgf s = Except.ok s1 ∧ s1.ctx.agree ∧ c.outcome s1.ctx := by
      cases c with
      | activate thread scd =>
        have hi : s.ctx.is_active_ = false := by simpa [Call.precondition] using hp
        obtain ⟨s1, h0, a1, a2, a3, _⟩ := activate_frame tgf thread scd s hi
        refine ⟨s1, h0, ?_, ?_⟩
        · unfold VKContext.agree
          rw [a1, a2, a3]
          cases s.ctx.render_graph_ <;> simp
        · show s1.ctx.thread_data_.isSome = true ∧ s1.ctx.render_graph_.isSome = true
          rw [a2, a3]
          cases s.ctx.render_graph_ <;> simp
      | flush =>
        have hi : s.ctx.is_active_ = true := by simpa [Call.precondition] using hp
        have ht : s.ctx.thread_data_.isSome = true := hagree.1.mp hi
        have hg : s.ctx.render_graph_.isSome = true := hagree.2.mp ht
        obtain ⟨t, ht⟩ := Option.isSome_iff_exists.mp ht
        obtain ⟨g, hg⟩ := Option.isSome_iff_exists.mp hg
        obtain ⟨s1, h0, a1, a2, a3, _⟩ := flush_frame s t g ht hg
        refine ⟨s1, h0, ?_, ?_⟩
        · unfold VKContext.agree
          rw [a1, a2, a3, hi, ht]
          simp
        · show s1.ctx.thread_data_.isSome = true ∧ s1.ctx.render_graph_.isSome = true
          rw [a2, a3, ht]
          simp
      | deactivate =>
        have hi : s.ctx.is_active_ = true := by simpa [Call.precondition] using hp
        have ht : s.ctx.thread_data_.isSome = true := hagree.1.mp hi
        have hg : s.ctx.render_graph_.isSome = true := hagree.2.mp ht
        obtain ⟨t, ht⟩ := Option.isSome_iff_exists.mp ht
        obtain ⟨g, hg⟩ := Option.isSome_iff_exists.mp hg
        obtain ⟨s1, h0, a1, a2, a3, _⟩ := deactivate_frame s t g ht hg
        refine ⟨s1, h0, ?_, ?_⟩
        · unfold VKContext.agree
          rw [a1, a2, a3]
          simp
        · exact ⟨a2, a3⟩
    obtain ⟨s1, h0, hag, hout⟩ := step
    rw [h0] at hrest
    obtain ⟨rest, hr, hall⟩ := ih s1 hag hrest
    refine ⟨s1 :: rest, ?_, List.Forall₂.cons ⟨hag, hout⟩ hall⟩
    unfold run_calls
    rw [h0]
    simp only [hr]

theorem reset_framebuffer_iff (scd : GHOST_VulkanSwapChainData) (s : State) :
    reset_framebuffer scd s = true ↔
      (s.ctx.swap_chain_format_.format ≠ scd.surface_format.format ∨
       s.ctx.swap_chain_format_.colorSpace ≠ scd.surface_format.colorSpace ∨
       s.ctx.vk_extent_.width ≠ scd.extent.width ∨
       s.ctx.vk_extent_.height ≠ scd.extent.height) := by
  simp [reset_framebuffer, or_assoc]

theorem cycle_step_backbuffer (cycle : Bool) (t : Nat) (s : State) :
    (if cycle then cycle_resource_pool_step t s else s).ctx.surface_texture_ =
      s.ctx.surface_texture_ ∧
    (if cycle then cycle_resource_pool_step t s else s).ctx.swap_chain_format_ =
      s.ctx.swap_chain_format_ ∧
    (if cycle then cycle_resource_pool_step t s else s).ctx.vk_extent_ = s.ctx.vk_extent_ ∧
    (if cycle then cycle_resource_pool_step t s else s).ctx.back_left = s.ctx.back_left ∧
    (if cycle then cycle_resource_pool_step t s else s).ctx.front_left = s.ctx.front_left ∧
    (if cycle then cycle_resource_pool_step t s else s).ctx.ghost_window_ = s.ctx.ghost_window_ ∧
    (if cycle then cycle_resource_pool_step t s else s).ctx.thread_data_ = s.ctx.thread_data_ ∧
    (if cycle then cycle_resource_pool_step t s else s).framebuffers = s.framebuffers ∧
    (if cycle then cycle_resource_pool_step t s else s).images_created = s.images_created ∧
    texture_events (if cycle then cycle_resource_pool_step t s else s).trace =
      texture_events s.trace := by
  cases cycle <;> simp [cycle_resource_pool_step, texture_events, List.filter_append]

theorem reset_framebuffer_congr (scd : GHOST_VulkanSwapChainData) (s1 s : State)
    (h1 : s1.ctx.swap_chain_format_ = s.ctx.swap_chain_format_)
    (h2 : s1.ctx.vk_extent_ = s.ctx.vk_extent_) :
    reset_framebuffer scd s1 = reset_framebuffer scd s := by
  simp [reset_framebuffer, h1, h2]

theorem backbuffer_reset_textures (tgf : Nat → Nat) (scd : GHOST_VulkanSwapChainData)
    (s : State) :
    (backbuffer_reset tgf scd s).ctx.surface_texture_ =
      some ⟨s.images_created, scd.extent.width, scd.extent.height,
        tgf scd.surface_format.format⟩ ∧
    texture_events (backbuffer_reset tgf scd s).trace = texture_events s.trace ++
      (match s.ctx.surface_texture_ with
       | some old => [Event.texture_free old]
       | none => []) ++
      [Event.texture_create ⟨s.images_created, scd.extent.width, scd.extent.height,
        tgf scd.surface_format.format⟩] ∧
    ((backbuffer_reset tgf scd s).framebuffers s.ctx.back_left).color_attachment0 =
      some ⟨s.images_created, scd.extent.width, scd.extent.height,
        tgf scd.surface_format.format⟩ ∧
    ((backbuffer_reset tgf scd s).framebuffers s.ctx.front_left).color_attachment0 =
      some ⟨s.images_created, scd.extent.width, scd.extent.height,
        tgf scd.surface_format.format⟩ ∧
    (backbuffer_reset tgf scd s).ctx.swap_chain_format_ = scd.surface_format ∧
    (backbuffer_reset tgf scd s).ctx.vk_extent_ = scd.extent := by
  have hte := flush_rendering_end_texture_events s
  have hm := (flush_rendering_end_misc s).1
  cases hst : s.ctx.surface_texture_ <;>
  · refine ⟨?_, ?_, ?_, ?_, ?_, ?_⟩ <;>
    simp [backbuffer_reset, surface_texture_renew, hst, VKFrameBuffer.attachment_set, State.emit,
      State.set_framebuffer, VKFrameBuffer.rendering_reset, VKFrameBuffer.update_srgb,
      VKFrameBuffer.update_size, texture_events, List.filter_append, hm,
      Function.update_apply] <;>
    first
      | exact hte
      | (split <;> simp)

theorem flags_renew_has_renew :
    RenderGraphFlushFlags.has RenderGraphFlushFlags.RENEW_RENDER_GRAPH
      RenderGraphFlushFlags.RENEW_RENDER_GRAPH = true := by decide

theorem flags_renew_has_submit :
    RenderGraphFlushFlags.has RenderGraphFlushFlags.RENEW_RENDER_GRAPH
      RenderGraphFlushFlags.SUBMIT = false := by decide

theorem flags_renew_has_wait :
    RenderGraphFlushFlags.has RenderGraphFlushFlags.RENEW_RENDER_GRAPH
      RenderGraphFlushFlags.WAIT_FOR_COMPLETION = false := by decide

theorem flags_submit_renew_has_renew :
    RenderGraphFlushFlags.has
      (RenderGraphFlushFlags.SUBMIT ||| RenderGraphFlushFlags.RENEW_RENDER_GRAPH)
      RenderGraphFlushFlags.RENEW_RENDER_GRAPH = true := by decide

theorem flags_submit_renew_has_submit :
    RenderGraphFlushFlags.has
      (RenderGraphFlushFlags.SUBMIT ||| RenderGraphFlushFlags.RENEW_RENDER_GRAPH)
      RenderGraphFlushFlags.SUBMIT = true := by decide

theorem flags_submit_renew_has_wait :
    RenderGraphFlushFlags.has
      (RenderGraphFlushFlags.SUBMIT ||| RenderGraphFlushFlags.RENEW_RENDER_GRAPH)
      RenderGraphFlushFlags.WAIT_FOR_COMPLETION = false := by decide

theorem pre_handler_no_debug (scd : GHOST_VulkanSwapChainData) (s : State) (t : Nat)
    (g : VKRenderGraph) (fb : Nat) (tex : VKTexture)
    (ht : s.ctx.thread_data_ = some t) (hg : s.ctx.render_graph_ = some g)
    (hfb : s.ctx.active_fb = some fb)
    (htex : (s.framebuffers fb).color_attachment0 = some tex)
    (hdbg : s.G_debug_gpu = false) :
    ∃ s1, swap_buffers_pre_handler scd s = Except.ok s1 ∧
      s1.trace = s.trace ++
        [Event.resources_add_image scd.image,
         Event.rendering_end fb,
         Event.upload_descriptor_sets t (s.device.thread_data t).resource_pool_get,
         Event.render_graph_submit
           (flush_call RenderGraphFlushFlags.RENEW_RENDER_GRAPH VK_PIPELINE_STAGE_NONE
             VK_NULL_HANDLE VK_NULL_HANDLE VK_NULL_HANDLE g) s.device.timeline_value_,
         Event.render_graph_new s.device.render_graphs_created,
         Event.upload_descriptor_sets t (s.device.thread_data t).resource_pool_get,
         Event.upload_descriptor_sets t (s.device.thread_data t).resource_pool_get,
         Event.render_graph_submit
           (flush_call (RenderGraphFlushFlags.SUBMIT ||| RenderGraphFlushFlags.RENEW_RENDER_GRAPH)
             (VK_PIPELINE_STAGE_COMPUTE_SHADER_BIT ||| VK_PIPELINE_STAGE_TRANSFER_BIT)
             scd.acquire_semaphore scd.present_semaphore scd.submission_fence
             ⟨s.device.render_graphs_created,
               s.ctx.debug_stack.map Command.debug_group_begin ++
                 [Command.add_node (Node.blit_image (blit_image_info tex scd)),
                  Command.add_node (Node.synchronization (synchronization_info scd))]⟩)
           (s.device.timeline_value_ + 1),
         Event.render_graph_new (s.device.render_graphs_created + 1),
         Event.resources_remove_image scd.image] ∧
      s1.ctx.render_graph_ = some ⟨s.device.render_graphs_created + 1,
        s.ctx.debug_stack.map Command.debug_group_begin⟩ ∧
      s1.ctx.debug_stack = s.ctx.debug_stack ∧
      (s1.framebuffers fb).is_rendering_ = false := by
  simp [swap_buffers_pre_handler, GPU_debug_group_begin, hdbg, hfb, htex, State.emit,
    VKFrameBuffer.rendering_end, State.set_framebuffer, flush_render_graph, flush_rendering_end,
    active_framebuffer_get, upload_descriptor_sets, ht, hg, open_render_graph_eq, add_node,
    GPU_debug_group_end, flags_renew_has_renew, flags_renew_has_submit, flags_renew_has_wait,
    flags_submit_renew_has_renew, flags_submit_renew_has_submit, flags_submit_renew_has_wait,
    VKDevice.render_graph_submit, flush_call]

theorem pre_handler_debug (scd : GHOST_VulkanSwapChainData) (s : State) (t : Nat)
    (g : VKRenderGraph) (fb : Nat) (tex : VKTexture)
    (ht : s.ctx.thread_data_ = some t) (hg : s.ctx.render_graph_ = some g)
    (hfb : s.ctx.active_fb = some fb)
    (htex : (s.framebuffers fb).color_attachment0 = some tex)
    (hdbg : s.G_debug_gpu = true) :
    ∃ s1, swap_buffers_pre_handler scd s = Except.ok s1 ∧
      s1.trace = s.trace ++
        [Event.resources_add_image scd.image,
         Event.rendering_end fb,
         Event.upload_descriptor_sets t (s.device.thread_data t).resource_pool_get,
         Event.render_graph_submit
           (flush_call RenderGraphFlushFlags.RENEW_RENDER_GRAPH VK_PIPELINE_STAGE_NONE
             VK_NULL_HANDLE VK_NULL_HANDLE VK_NULL_HANDLE
             ⟨g.id, g.commands ++ [Command.debug_group_begin "BackBuffer.Blit"]⟩)
           s.device.timeline_value_,
         Event.render_graph_new s.device.render_graphs_created,
         Event.upload_descriptor_sets t (s.device.thread_data t).resource_pool_get,
         Event.upload_descriptor_sets t (s.device.thread_data t).resource_pool_get,
         Event.render_graph_submit
           (flush_call (RenderGraphFlushFlags.SUBMIT ||| RenderGraphFlushFlags.RENEW_RENDER_GRAPH)
             (VK_PIPELINE_STAGE_COMPUTE_SHADER_BIT ||| VK_PIPELINE_STAGE_TRANSFER_BIT)
             scd.acquire_semaphore scd.present_semaphore scd.submission_fence
             ⟨s.device.render_graphs_created,
               (s.ctx.debug_stack ++ ["BackBuffer.Blit"]).map Command.debug_group_begin ++
                 [Command.add_node (Node.blit_image (blit_image_info tex scd)),
                  Command.debug_group_end,
                  Command.add_node (Node.synchronization (synchronization_info scd))]⟩)
           (s.device.timeline_value_ + 1),
         Event.render_graph_new (s.device.render_graphs_created + 1),
         Event.resources_remove_image scd.image] ∧
      s1.ctx.render_graph_ = some ⟨s.device.render_graphs_created + 1,
        s.ctx.debug_stack.map Command.debug_group_begin⟩ ∧
      s1.ctx.debug_stack = s.ctx.debug_stack ∧
      (s1.framebuffers fb).is_rendering_ = false := by
  simp [swap_buffers_pre_handler, GPU_debug_group_begin, debug_group_begin, debug_group_end,
    hdbg, hfb, htex, State.emit,
    VKFrameBuffer.rendering_end, State.set_framebuffer, flush_render_graph, flush_rendering_end,
    active_framebuffer_get, upload_descriptor_sets, ht, hg, open_render_graph_eq, add_node,
    GPU_debug_group_end, flags_renew_has_renew, flags_renew_has_submit, flags_renew_has_wait,
    flags_submit_renew_has_renew, flags_submit_renew_has_submit, flags_submit_renew_has_wait,
    VKDevice.render_graph_submit, flush_call]

theorem nodes_map_begin (l : List String) (cs : List Command) :
    VKRenderGraph.nodes ⟨0, l.map Command.debug_group_begin ++ cs⟩ =
      VKRenderGraph.nodes ⟨0, cs⟩ := by
  induction l with
  | nil => rfl
  | cons x xs ih =>
    simp only [VKRenderGraph.nodes] at ih ⊢
    simp [List.filterMap_cons, ih]

theorem ring_two_steps (i : Nat) (h : i < 2) : ((i + 1) % 2 + 1) % 2 = i := by
  interval_cases i <;> rfl

/-! ## Graphics context: properties -/

/-- C1: on a freshly constructed context, every sequence of `activate`, `flush` and `deactivate`
calls in which each call meets its precondition runs without failure, and after every call
`is_active_`, the presence of a thread association and the presence of an open graph agree;
after `deactivate` there is no thread association and no open graph, after `activate` and
`flush` there are both. -/
theorem activation_calls_keep_invariant (tgf : Nat → Nat) (ghost_window : Option Nat)
    (back_left front_left : Nat) (calls : List Call) (s0 : State)
    (hnew : s0.ctx = VKContext.new ghost_window back_left front_left)
    (hpre : meets_preconditions tgf calls s0 = true) :
    ∃ states, run_calls tgf calls s0 = Except.ok states ∧
      List.Forall₂ (fun c s1 => s1.ctx.agree ∧ c.outcome s1.ctx) calls states := by
  apply run_calls_invariant tgf calls s0 _ hpre
  rw [hnew]
  simp [VKContext.agree, VKContext.new]

/-- Witness of C1: a window context is activated, flushed, deactivated, activated again after
a resize and deactivated. -/
theorem activation_calls_keep_invariant_witness :
    (State.initial (some 1) 2 false).ctx = VKContext.new (some 1) 0 1 ∧
    meets_preconditions to_gpu_format_id
      [Call.activate 0 swap_chain_800x600, Call.flush, Call.deactivate,
       Call.activate 0 swap_chain_1920x1080, Call.deactivate]
      (State.initial (some 1) 2 false) = true ∧
    ∃ states, run_calls to_gpu_format_id
      [Call.activate 0 swap_chain_800x600, Call.flush, Call.deactivate,
       Call.activate 0 swap_chain_1920x1080, Call.deactivate]
      (State.initial (some 1) 2 false) = Except.ok states ∧
      List.Forall₂ (fun c s1 => s1.ctx.agree ∧ c.outcome s1.ctx)
        [Call.activate 0 swap_chain_800x600, Call.flush, Call.deactivate,
         Call.activate 0 swap_chain_1920x1080, Call.deactivate] states :=
  ⟨rfl, by decide,
    activation_calls_keep_invariant to_gpu_format_id (some 1) 0 1 _ _ rfl (by decide)⟩

/-- C2: on a context that satisfies the context invariant and whose open graph `g` was handed
out by the device, a `flush_render_graph` with `RENEW_RENDER_GRAPH` among its flags leaves the
context with the graph created by the closing `render_graph_new` call, different from the graph
handed over, on which exactly one `debug_group_begin` per entry of `debug_stack` has been
recorded, in stack order, and nothing else; `debug_stack` is unchanged; the groups open on the
new graph are those of `debug_stack`, so that a following `debug_group_end` closes the innermost
of them. `activate` replays the stack in the same way when it opens a graph. -/
theorem renewal_replays_debug_stack (flags : RenderGraphFlushFlags) (m ws ss f : Nat)
    (s : State) (g : VKRenderGraph) (hinv : s.ctx.agree) (hg : s.ctx.render_graph_ = some g)
    (hrenew : flags &&& RenderGraphFlushFlags.RENEW_RENDER_GRAPH ≠ 0)
    (hid : g.id < s.device.render_graphs_created) :
    (∃ stamp s1 g1, flush_render_graph flags m ws ss f s = Except.ok (stamp, s1) ∧
      s1.ctx.render_graph_ = some g1 ∧
      g1.id ≠ g.id ∧
      s1.trace.getLast? = some (Event.render_graph_new g1.id) ∧
      g1.id = s.device.render_graphs_created ∧
      g1.commands = s.ctx.debug_stack.map Command.debug_group_begin ∧
      s1.ctx.debug_stack = s.ctx.debug_stack ∧
      g1.group_stack = s.ctx.debug_stack ∧
      ∃ s2 g2, debug_group_end s1 = Except.ok s2 ∧
        s2.ctx.render_graph_ = some g2 ∧
        g2.commands = g1.commands ++ [Command.debug_group_end] ∧
        g2.group_stack = s.ctx.debug_stack.dropLast) ∧
    (∀ (tgf : Nat → Nat) (thread : Nat) (scd : GHOST_VulkanSwapChainData) (s0 : State),
      s0.ctx.is_active_ = false → s0.ctx.render_graph_ = none →
      ∃ s3 g3, activate tgf thread scd s0 = Except.ok s3 ∧
        s3.ctx.render_graph_ = some g3 ∧
        g3.commands = s0.ctx.debug_stack.map Command.debug_group_begin ∧
        s3.ctx.debug_stack = s0.ctx.debug_stack) := by
  obtain ⟨t, ht⟩ : ∃ t, s.ctx.thread_data_ = some t :=
    Option.isSome_iff_exists.mp (hinv.2.mpr (by rw [hg]; rfl))
  have hr : RenderGraphFlushFlags.has flags RenderGraphFlushFlags.RENEW_RENDER_GRAPH = true := by
    simpa [RenderGraphFlushFlags.has] using hrenew
  refine ⟨?_, ?_⟩
  · rw [flush_render_graph_eq flags m ws ss f s t g ht hg]
    simp only [hr, if_true]
    refine ⟨_, _, _, rfl, rfl, ?_, ?_, rfl, rfl, rfl, ?_, ?_⟩
    · exact (Nat.ne_of_lt hid).symm
    · simp
    · simp [VKRenderGraph.group_stack, open_groups_begin]
    · refine ⟨_, _, rfl, rfl, rfl, ?_⟩
      simp [VKRenderGraph.group_stack, open_groups_append, open_groups_begin, open_groups]
  · intro tgf thread scd s0 hi hnone
    obtain ⟨s3, h0, _, _, a3, a4, _⟩ := activate_frame tgf thread scd s0 hi
    rw [hnone] at a3
    exact ⟨s3, _, h0, a3, rfl, a4⟩

/-- Witness of C2: a plain `RENEW_RENDER_GRAPH` flush in the middle of a frame with the debug
group "Frame" open. -/
theorem renewal_replays_debug_stack_witness :
    State.window_active.ctx.agree ∧
    State.window_active.ctx.render_graph_ = some frame_graph ∧
    RenderGraphFlushFlags.RENEW_RENDER_GRAPH &&& RenderGraphFlushFlags.RENEW_RENDER_GRAPH ≠ 0 ∧
    ∃ stamp s1 g1, flush_render_graph RenderGraphFlushFlags.RENEW_RENDER_GRAPH 0 0 0 0
        State.window_active = Except.ok (stamp, s1) ∧
      s1.ctx.render_graph_ = some g1 ∧
      g1.commands = State.window_active.ctx.debug_stack.map Command.debug_group_begin := by
  have hinv : State.window_active.ctx.agree := by simp [VKContext.agree, State.window_active]
  refine ⟨hinv, rfl, by decide, ?_⟩
  obtain ⟨⟨stamp, s1, g1, h0, h1, _, _, _, h5, _⟩, _⟩ :=
    renewal_replays_debug_stack RenderGraphFlushFlags.RENEW_RENDER_GRAPH 0 0 0 0
      State.window_active frame_graph hinv rfl (by decide) (by decide)
  exact ⟨stamp, s1, g1, h0, h1, h5⟩

/-- C3: on a context that satisfies the context invariant and has graph `g` open,
`flush_render_graph` makes exactly one `render_graph_submit` call, for `g`, asking for submission
exactly when `SUBMIT` is among the flags and for blocking exactly when `WAIT_FOR_COMPLETION` is,
passing the stage mask, semaphores and fence through, and returns the stamp the device returned.
`deactivate` and `flush` each hand the graph over once without asking for submission, and leave
the timeline where it was. -/
theorem flush_render_graph_submits_once (flags : RenderGraphFlushFlags) (m ws ss f : Nat)
    (s : State) (g : VKRenderGraph) (hinv : s.ctx.agree) (hg : s.ctx.render_graph_ = some g) :
    (∃ stamp s1 call, flush_render_graph flags m ws ss f s = Except.ok (stamp, s1) ∧
      submit_calls s1.trace = submit_calls s.trace ++ [(call, stamp)] ∧
      call.render_graph = g ∧
      (call.submit_to_device = true ↔ flags &&& RenderGraphFlushFlags.SUBMIT ≠ 0) ∧
      (call.wait_for_completion = true ↔
        flags &&& RenderGraphFlushFlags.WAIT_FOR_COMPLETION ≠ 0) ∧
      call.wait_dst_stage_mask = m ∧ call.wait_semaphore = ws ∧
      call.signal_semaphore = ss ∧ call.signal_fence = f ∧
      stamp = (s.device.render_graph_submit call).1) ∧
    (∃ s2 call stamp, deactivate s = Except.ok s2 ∧
      submit_calls s2.trace = submit_calls s.trace ++ [(call, stamp)] ∧
      call.render_graph = g ∧ call.submit_to_device = false ∧
      s2.device.timeline_value_ = s.device.timeline_value_) ∧
    (∃ s3 call stamp, flush s = Except.ok s3 ∧
      submit_calls s3.trace = submit_calls s.trace ++ [(call, stamp)] ∧
      call.render_graph = g ∧ call.submit_to_device = false ∧
      s3.device.timeline_value_ = s.device.timeline_value_) := by
  obtain ⟨t, ht⟩ : ∃ t, s.ctx.thread_data_ = some t :=
    Option.isSome_iff_exists.mp (hinv.2.mpr (by rw [hg]; rfl))
  refine ⟨?_, ?_, ?_⟩
  · rw [flush_render_graph_eq flags m ws ss f s t g ht hg]
    refine ⟨_, _, flush_call flags m ws ss f g, rfl, ?_, rfl, ?_, ?_, rfl, rfl, rfl, rfl, rfl⟩
    · by_cases hr : RenderGraphFlushFlags.has flags RenderGraphFlushFlags.RENEW_RENDER_GRAPH = true
      · simp only [hr, if_true]
        simp [submit_calls, List.filterMap_append]
        exact flush_rendering_end_submit_calls s
      · simp only [hr]
        simp [submit_calls, List.filterMap_append]
        exact flush_rendering_end_submit_calls s
    · simp [flush_call, RenderGraphFlushFlags.has]
    · simp [flush_call, RenderGraphFlushFlags.has]
  · obtain ⟨s2, h0, _, _, _, _, _, _, _, a8, a9⟩ := deactivate_frame s t g ht hg
    exact ⟨s2, _, _, h0, a8, rfl, rfl, a9⟩
  · obtain ⟨s3, h0, _, _, _, _, _, _, _, a8, a9⟩ := flush_frame s t g ht hg
    exact ⟨s3, _, _, h0, a8, rfl, rfl, a9⟩

/-- Witness of C3: a flush with `SUBMIT` and `WAIT_FOR_COMPLETION` in the middle of a frame. -/
theorem flush_render_graph_submits_once_witness :
    State.window_active.ctx.agree ∧
    State.window_active.ctx.render_graph_ = some frame_graph ∧
    ∃ stamp s1 call, flush_render_graph
        (RenderGraphFlushFlags.SUBMIT ||| RenderGraphFlushFlags.WAIT_FOR_COMPLETION) 0 0 0 0
        State.window_active = Except.ok (stamp, s1) ∧
      submit_calls s1.trace = submit_calls State.window_active.trace ++ [(call, stamp)] := by
  have hinv : State.window_active.ctx.agree := by simp [VKContext.agree, State.window_active]
  refine ⟨hinv, rfl, ?_⟩
  obtain ⟨⟨stamp, s1, call, h0, h1, _⟩, _⟩ :=
    flush_render_graph_submits_once
      (RenderGraphFlushFlags.SUBMIT ||| RenderGraphFlushFlags.WAIT_FOR_COMPLETION) 0 0 0 0
      State.window_active frame_graph hinv rfl
  exact ⟨stamp, s1, call, h0, h1⟩

/-- C4: with frame-buffer `A` active, `activate_framebuffer B` succeeds (the assertion
`active_fb == nullptr` holds), calls `rendering_end` on `A` exactly when `A` was rendering and
before `update_size`, `update_srgb` and `rendering_reset` on `B`, leaves `A` out of the rendering
sub-state and ends with `B` active. `deactivate_framebuffer` fails its assertion when no
frame-buffer is active, and with `A` active it ends the rendering of `A` if open and leaves no
frame-buffer active. -/
theorem activate_framebuffer_ends_rendering_first (A B : Nat) (s : State)
    (hA : s.ctx.active_fb = some A) :
    (∃ s1, activate_framebuffer B s = Except.ok s1 ∧
      s1.ctx.active_fb = some B ∧
      s1.trace = s.trace ++
        (if (s.framebuffers A).is_rendering_ then [Event.rendering_end A] else []) ++
        [Event.update_size B, Event.update_srgb B, Event.rendering_reset B] ∧
      (s1.framebuffers A).is_rendering_ = false) ∧
    (∀ s0 : State, s0.ctx.active_fb = none →
      deactivate_framebuffer s0 = Except.error (Failure.assertion "framebuffer != nullptr")) ∧
    (∃ s2, deactivate_framebuffer s = Except.ok s2 ∧ s2.ctx.active_fb = none ∧
      s2.trace = s.trace ++
        (if (s.framebuffers A).is_rendering_ then [Event.rendering_end A] else []) ∧
      (s2.framebuffers A).is_rendering_ = false) := by
  refine ⟨?_, ?_, ?_⟩
  · by_cases hr : (s.framebuffers A).is_rendering_ = true
    · by_cases hAB : A = B
      · subst hAB
        simp [activate_framebuffer, has_active_framebuffer, active_framebuffer_get,
          deactivate_framebuffer, hA, hr, VKFrameBuffer.rendering_end, VKFrameBuffer.update_size,
          VKFrameBuffer.update_srgb, VKFrameBuffer.rendering_reset, State.emit,
          State.set_framebuffer]
      · simp [activate_framebuffer, has_active_framebuffer, active_framebuffer_get,
          deactivate_framebuffer, hA, hr, VKFrameBuffer.rendering_end, VKFrameBuffer.update_size,
          VKFrameBuffer.update_srgb, VKFrameBuffer.rendering_reset, State.emit,
          State.set_framebuffer, hAB, Function.update_noteq]
    · by_cases hAB : A = B
      · subst hAB
        simp [activate_framebuffer, has_active_framebuffer, active_framebuffer_get,
          deactivate_framebuffer, hA, hr, VKFrameBuffer.rendering_end, VKFrameBuffer.update_size,
          VKFrameBuffer.update_srgb, VKFrameBuffer.rendering_reset, State.emit,
          State.set_framebuffer]
      · simp [activate_framebuffer, has_active_framebuffer, active_framebuffer_get,
          deactivate_framebuffer, hA, hr, VKFrameBuffer.rendering_end, VKFrameBuffer.update_size,
          VKFrameBuffer.update_srgb, VKFrameBuffer.rendering_reset, State.emit,
          State.set_framebuffer, hAB, Function.update_noteq]
  · intro s0 h0
    simp [deactivate_framebuffer, active_framebuffer_get, h0]
  · by_cases hr : (s.framebuffers A).is_rendering_ = true
    · simp [deactivate_framebuffer, active_framebuffer_get, hA, hr, VKFrameBuffer.rendering_end,
        State.emit, State.set_framebuffer]
    · simp [deactivate_framebuffer, active_framebuffer_get, hA, hr]

/-- Witness of C4: `back_left` (0) is active and rendering, `front_left` (1) is activated. -/
theorem activate_framebuffer_ends_rendering_first_witness :
    State.window_active.ctx.active_fb = some 0 ∧
    ∃ s1, activate_framebuffer 1 State.window_active = Except.ok s1 ∧
      s1.ctx.active_fb = some 1 ∧
      (s1.framebuffers 0).is_rendering_ = false := by
  refine ⟨rfl, ?_⟩
  obtain ⟨⟨s1, h0, h1, _, h3⟩, _⟩ :=
    activate_framebuffer_ends_rendering_first 0 1 State.window_active rfl
  exact ⟨s1, h0, h1, h3⟩

/-- C5, counterexample: a newly constructed context has a window but no thread association;
the reported 800x600 differs from the recorded extent, yet `sync_backbuffer` stops at its read
of `thread_data_` and neither compares nor creates anything. -/
theorem sync_backbuffer_unbound_fails :
    (State.initial (some 1) 2 false).ctx.ghost_window_ = some 1 ∧
    (State.initial (some 1) 2 false).ctx.thread_data_ = none ∧
    (State.initial (some 1) 2 false).ctx.vk_extent_.width ≠ swap_chain_800x600.extent.width ∧
    sync_backbuffer to_gpu_format_id false swap_chain_800x600 (State.initial (some 1) 2 false) =
      Except.error Failure.bad_optional_access ∧
    ¬ ∃ s1, sync_backbuffer to_gpu_format_id false swap_chain_800x600
      (State.initial (some 1) 2 false) = Except.ok s1 := by
  refine ⟨rfl, rfl, by decide, rfl, ?_⟩
  rintro ⟨s1, h1⟩
  have e : sync_backbuffer to_gpu_format_id false swap_chain_800x600
      (State.initial (some 1) 2 false) = Except.error Failure.bad_optional_access := rfl
  rw [e] at h1
  cases h1

/-- C5, amended: on a context that has a window and is bound to a thread, `sync_backbuffer`
succeeds. If the reported format, colour space, width or height differs from the recorded one,
the old surface texture, if any, is freed, a new one with the reported width and height is
created and attached as colour attachment 0 of `back_left` and `front_left`, and the reported
format and extent are recorded. If none differs, surface texture, frame-buffers and recorded
format and extent are unchanged and no texture is created or freed. A second call with the
same swap-chain data never creates or frees a texture. -/
theorem sync_backbuffer_reallocates_iff_changed (tgf : Nat → Nat) (cycle : Bool)
    (scd : GHOST_VulkanSwapChainData) (s : State) (w t : Nat) (hw : s.ctx.ghost_window_ = some w)
    (ht : s.ctx.thread_data_ = some t) :
    ∃ s1, sync_backbuffer tgf cycle scd s = Except.ok s1 ∧
      ((s.ctx.swap_chain_format_.format ≠ scd.surface_format.format ∨
        s.ctx.swap_chain_format_.colorSpace ≠ scd.surface_format.colorSpace ∨
        s.ctx.vk_extent_.width ≠ scd.extent.width ∨
        s.ctx.vk_extent_.height ≠ scd.extent.height) →
        ∃ tex, s1.ctx.surface_texture_ = some tex ∧
          tex.width = scd.extent.width ∧ tex.height = scd.extent.height ∧
          tex.vk_image = s.images_created ∧
          texture_events s1.trace = texture_events s.trace ++
            (match s.ctx.surface_texture_ with
             | some old => [Event.texture_free old]
             | none => []) ++ [Event.texture_create tex] ∧
          (s1.framebuffers s.ctx.back_left).color_attachment0 = some tex ∧
          (s1.framebuffers s.ctx.front_left).color_attachment0 = some tex ∧
          s1.ctx.swap_chain_format_ = scd.surface_format ∧
          s1.ctx.vk_extent_ = scd.extent) ∧
      (¬(s.ctx.swap_chain_format_.format ≠ scd.surface_format.format ∨
        s.ctx.swap_chain_format_.colorSpace ≠ scd.surface_format.colorSpace ∨
        s.ctx.vk_extent_.width ≠ scd.extent.width ∨
        s.ctx.vk_extent_.height ≠ scd.extent.height) →
        s1.ctx.surface_texture_ = s.ctx.surface_texture_ ∧
        s1.framebuffers = s.framebuffers ∧
        s1.ctx.swap_chain_format_ = s.ctx.swap_chain_format_ ∧
        s1.ctx.vk_extent_ = s.ctx.vk_extent_ ∧
        texture_events s1.trace = texture_events s.trace) ∧
      (∀ cycle2 : Bool, ∃ s2, sync_backbuffer tgf cycle2 scd s1 = Except.ok s2 ∧
        s2.ctx.surface_texture_ = s1.ctx.surface_texture_ ∧
        s2.framebuffers = s1.framebuffers ∧
        s2.ctx.swap_chain_format_ = s1.ctx.swap_chain_format_ ∧
        s2.ctx.vk_extent_ = s1.ctx.vk_extent_ ∧
        texture_events s2.trace = texture_events s1.trace) := by
  have same : ∀ (c : Bool) (x : State) (w1 t1 : Nat), x.ctx.ghost_window_ = some w1 →
      x.ctx.thread_data_ = some t1 → reset_framebuffer scd x = false →
      ∃ x1, sync_backbuffer tgf c scd x = Except.ok x1 ∧
        x1.ctx.surface_texture_ = x.ctx.surface_texture_ ∧
        x1.framebuffers = x.framebuffers ∧
        x1.ctx.swap_chain_format_ = x.ctx.swap_chain_format_ ∧
        x1.ctx.vk_extent_ = x.ctx.vk_extent_ ∧
        texture_events x1.trace = texture_events x.trace := by
    intro c x w1 t1 hw1 ht1 hr
    obtain ⟨c1, c2, c3, _, _, _, _, c8, _, c10⟩ := cycle_step_backbuffer c t1 x
    rw [sync_backbuffer_eq tgf c scd x w1 t1 hw1 ht1, reset_framebuffer_congr scd _ x c2 c3, hr]
    exact ⟨_, rfl, c1, c8, c2, c3, c10⟩
  obtain ⟨c1, c2, c3, c4, c5, c6, c7, c8, c9, c10⟩ := cycle_step_backbuffer cycle t s
  have heq := sync_backbuffer_eq tgf cycle scd s w t hw ht
  rw [reset_framebuffer_congr scd _ s c2 c3] at heq
  by_cases hr : reset_framebuffer scd s = true
  · have hdiff := (reset_framebuffer_iff scd s).mp hr
    rw [hr] at heq
    simp only [if_true] at heq
    obtain ⟨b1, b2, b3, b4, b5, b6⟩ :=
      backbuffer_reset_textures tgf scd (if cycle then cycle_resource_pool_step t s else s)
    obtain ⟨f1, f2, _, _, f5, _⟩ :=
      backbuffer_reset_frame tgf scd (if cycle then cycle_resource_pool_step t s else s)
    simp only [c1, c4, c5, c9, c10] at b1 b2 b3 b4
    refine ⟨_, heq, ?_, ?_, ?_⟩
    · intro _
      exact ⟨_, b1, rfl, rfl, rfl, b2, b3, b4, b5, b6⟩
    · intro hn
      exact absurd hdiff hn
    · intro cycle2
      apply same cycle2 _ w t
      · rw [f5, c6, hw]
      · rw [f2, c7, ht]
      · simp [reset_framebuffer, b5, b6]
  · have hr2 : reset_framebuffer scd s = false := by simpa using hr
    have hnd : ¬(s.ctx.swap_chain_format_.format ≠ scd.surface_format.format ∨
        s.ctx.swap_chain_format_.colorSpace ≠ scd.surface_format.colorSpace ∨
        s.ctx.vk_extent_.width ≠ scd.extent.width ∨
        s.ctx.vk_extent_.height ≠ scd.extent.height) := fun h =>
      hr ((reset_framebuffer_iff scd s).mpr h)
    rw [hr2] at heq
    simp only [Bool.false_eq_true, if_false] at heq
    refine ⟨_, heq, ?_, ?_, ?_⟩
    · intro h
      exact absurd h hnd
    · intro _
      exact ⟨c1, c8, c2, c3, c10⟩
    · intro cycle2
      apply same cycle2 _ w t
      · rw [c6, hw]
      · rw [c7, ht]
      · rw [reset_framebuffer_congr scd _ s c2 c3, hr2]

/-- Witness of C5 as amended: the surface recorded as 800x600 is reported as 1920x1080. -/
theorem sync_backbuffer_reallocates_iff_changed_witness :
    State.window_active.ctx.ghost_window_ = some 1 ∧
    State.window_active.ctx.thread_data_ = some 0 ∧
    State.window_active.ctx.vk_extent_ = { width := 800, height := 600 } ∧
    ∃ s1 tex, sync_backbuffer to_gpu_format_id true swap_chain_1920x1080 State.window_active =
        Except.ok s1 ∧
      s1.ctx.surface_texture_ = some tex ∧ tex.width = 1920 ∧ tex.height = 1080 := by
  refine ⟨rfl, rfl, rfl, ?_⟩
  obtain ⟨s1, h0, hdiff, _, _⟩ :=
    sync_backbuffer_reallocates_iff_changed to_gpu_format_id true swap_chain_1920x1080
      State.window_active 1 0 rfl rfl
  obtain ⟨tex, h1, h2, h3, _⟩ := hdiff (Or.inr (Or.inr (Or.inl (by decide))))
  exact ⟨s1, tex, h0, h1, h2, h3⟩

/-- C6: on an active context (so, by the context invariant, bound to a thread `t` and with a
graph `g` open) whose active frame-buffer has a colour attachment, `swap_buffers_pre_handler`
succeeds and hands exactly two graphs to the device. The first hand-over follows the
`rendering_end` of the frame-buffer, does not ask for submission, is followed by the creation of
a new graph, and is of graph `g`, with everything recorded before the call and no further work
node. The second asks for submission, waits on the acquire semaphore, signals the present
semaphore and the submission fence, is followed by the creation of a new graph, and its graph
has exactly two work nodes: the blit to the swap-chain image and then the synchronization node
that moves that image to the present layout. -/
theorem swap_buffers_pre_handler_two_flushes (scd : GHOST_VulkanSwapChainData) (s : State)
    (fb : Nat) (tex : VKTexture)
    (hinv : s.ctx.agree) (hact : s.ctx.is_active_ = true)
    (hfb : s.ctx.active_fb = some fb)
    (htex : (s.framebuffers fb).color_attachment0 = some tex) :
    ∃ t g s1 c1 t1 c2 t2, s.ctx.thread_data_ = some t ∧ s.ctx.render_graph_ = some g ∧
      swap_buffers_pre_handler scd s = Except.ok s1 ∧
      submit_calls s1.trace = submit_calls s.trace ++ [(c1, t1), (c2, t2)] ∧
      s1.trace = s.trace ++
        [Event.resources_add_image scd.image,
         Event.rendering_end fb,
         Event.upload_descriptor_sets t (s.device.thread_data t).resource_pool_get,
         Event.render_graph_submit c1 t1,
         Event.render_graph_new c2.render_graph.id,
         Event.upload_descriptor_sets t (s.device.thread_data t).resource_pool_get,
         Event.upload_descriptor_sets t (s.device.thread_data t).resource_pool_get,
         Event.render_graph_submit c2 t2,
         Event.render_graph_new (c2.render_graph.id + 1),
         Event.resources_remove_image scd.image] ∧
      c1.submit_to_device = false ∧
      c1.render_graph.id = g.id ∧
      (∃ extra, c1.render_graph.commands = g.commands ++ extra) ∧
      c1.render_graph.nodes = g.nodes ∧
      c2.submit_to_device = true ∧
      c2.wait_semaphore = scd.acquire_semaphore ∧
      c2.signal_semaphore = scd.present_semaphore ∧
      c2.signal_fence = scd.submission_fence ∧
      c2.wait_dst_stage_mask =
        VK_PIPELINE_STAGE_COMPUTE_SHADER_BIT ||| VK_PIPELINE_STAGE_TRANSFER_BIT ∧
      c2.render_graph.nodes =
        [Node.blit_image (blit_image_info tex scd),
         Node.synchronization (synchronization_info scd)] ∧
      (blit_image_info tex scd).src_image = tex.vk_image ∧
      (blit_image_info tex scd).dst_image = scd.image ∧
      (synchronization_info scd).vk_image = scd.image ∧
      (synchronization_info scd).vk_image_layout = VK_IMAGE_LAYOUT_PRESENT_SRC_KHR ∧
      (∃ g3, s1.ctx.render_graph_ = some g3 ∧ g3.id ≠ c2.render_graph.id ∧ g3.nodes = []) := by
  have hts : s.ctx.thread_data_.isSome = true := hinv.1.mp hact
  obtain ⟨t, ht⟩ := Option.isSome_iff_exists.mp hts
  obtain ⟨g, hg⟩ := Option.isSome_iff_exists.mp (hinv.2.mp hts)
  cases hdbg : s.G_debug_gpu with
  | false =>
    obtain ⟨s1, h0, htr, hrg, _, _⟩ := pre_handler_no_debug scd s t g fb tex ht hg hfb htex hdbg
    refine ⟨t, g, s1,
      flush_call RenderGraphFlushFlags.RENEW_RENDER_GRAPH VK_PIPELINE_STAGE_NONE
        VK_NULL_HANDLE VK_NULL_HANDLE VK_NULL_HANDLE g,
      s.device.timeline_value_,
      flush_call (RenderGraphFlushFlags.SUBMIT ||| RenderGraphFlushFlags.RENEW_RENDER_GRAPH)
        (VK_PIPELINE_STAGE_COMPUTE_SHADER_BIT ||| VK_PIPELINE_STAGE_TRANSFER_BIT)
        scd.acquire_semaphore scd.present_semaphore scd.submission_fence
        ⟨s.device.render_graphs_created,
          s.ctx.debug_stack.map Command.debug_group_begin ++
            [Command.add_node (Node.blit_image (blit_image_info tex scd)),
             Command.add_node (Node.synchronization (synchronization_info scd))]⟩,
      s.device.timeline_value_ + 1,
      ht, hg, h0, ?_, htr, rfl, rfl, ⟨[], by simp [flush_call]⟩, rfl, rfl, rfl, rfl,
      rfl, rfl, ?_, rfl, rfl, rfl, rfl, ⟨_, hrg, ?_, ?_⟩⟩
    · rw [htr]
      simp [submit_calls, List.filterMap_append]
    · simp only [flush_call, VKRenderGraph.nodes]
      have := nodes_map_begin s.ctx.debug_stack
        [Command.add_node (Node.blit_image (blit_image_info tex scd)),
         Command.add_node (Node.synchronization (synchronization_info scd))]
      simp only [VKRenderGraph.nodes] at this
      rw [this]
      rfl
    · simp [flush_call]
    · have := nodes_map_begin s.ctx.debug_stack []
      simp only [VKRenderGraph.nodes, List.append_nil] at this ⊢
      rw [this]
      rfl
  | true =>
    obtain ⟨s1, h0, htr, hrg, _, _⟩ := pre_handler_debug scd s t g fb tex ht hg hfb htex hdbg
    refine ⟨t, g, s1,
      flush_call RenderGraphFlushFlags.RENEW_RENDER_GRAPH VK_PIPELINE_STAGE_NONE
        VK_NULL_HANDLE VK_NULL_HANDLE VK_NULL_HANDLE
        ⟨g.id, g.commands ++ [Command.debug_group_begin "BackBuffer.Blit"]⟩,
      s.device.timeline_value_,
      flush_call (RenderGraphFlushFlags.SUBMIT ||| RenderGraphFlushFlags.RENEW_RENDER_GRAPH)
        (VK_PIPELINE_STAGE_COMPUTE_SHADER_BIT ||| VK_PIPELINE_STAGE_TRANSFER_BIT)
        scd.acquire_semaphore scd.present_semaphore scd.submission_fence
        ⟨s.device.render_graphs_created,
          (s.ctx.debug_stack ++ ["BackBuffer.Blit"]).map Command.debug_group_begin ++
            [Command.add_node (Node.blit_image (blit_image_info tex scd)),
             Command.debug_group_end,
             Command.add_node (Node.synchronization (synchronization_info scd))]⟩,
      s.device.timeline_value_ + 1,
      ht, hg, h0, ?_, htr, rfl, rfl,
      ⟨[Command.debug_group_begin "BackBuffer.Blit"], rfl⟩, ?_, rfl, rfl, rfl,
      rfl, rfl, ?_, rfl, rfl, rfl, rfl, ⟨_, hrg, ?_, ?_⟩⟩
    · rw [htr]
      simp [submit_calls, List.filterMap_append]
    · simp [flush_call, VKRenderGraph.nodes, List.filterMap_append]
    · simp only [flush_call, VKRenderGraph.nodes]
      have := nodes_map_begin (s.ctx.debug_stack ++ ["BackBuffer.Blit"])
        [Command.add_node (Node.blit_image (blit_image_info tex scd)),
         Command.debug_group_end,
         Command.add_node (Node.synchronization (synchronization_info scd))]
      simp only [VKRenderGraph.nodes] at this
      rw [this]
      rfl
    · simp [flush_call]
    · have := nodes_map_begin s.ctx.debug_stack []
      simp only [VKRenderGraph.nodes, List.append_nil] at this ⊢
      rw [this]
      rfl

/-- Witness of C6: the pre-present handler in the middle of a frame that renders to
`back_left`. -/
theorem swap_buffers_pre_handler_two_flushes_witness :
    State.window_active.ctx.agree ∧
    State.window_active.ctx.is_active_ = true ∧
    State.window_active.ctx.active_fb = some 0 ∧
    (State.window_active.framebuffers 0).color_attachment0 = some ⟨0, 800, 600, 44⟩ ∧
    ∃ s1 c1 t1 c2 t2, swap_buffers_pre_handler swap_chain_800x600 State.window_active =
        Except.ok s1 ∧
      submit_calls s1.trace = submit_calls State.window_active.trace ++ [(c1, t1), (c2, t2)] := by
  have hinv : State.window_active.ctx.agree := by simp [VKContext.agree, State.window_active]
  refine ⟨hinv, rfl, rfl, rfl, ?_⟩
  obtain ⟨_, _, s1, c1, t1, c2, t2, _, _, h0, h1, _⟩ :=
    swap_buffers_pre_handler_two_flushes swap_chain_800x600 State.window_active 0
      ⟨0, 800, 600, 44⟩ hinv rfl rfl rfl
  exact ⟨s1, c1, t1, c2, t2, h0, h1⟩

/-- C7, counterexample: the context without a window that `activate` leaves active on thread 0
(ring of two resource pools) is left as it is by `swap_buffers_post_handler`; no
`resource_pool_next` call is made, so the ring is not advanced by one step. -/
theorem post_handler_without_window_keeps_ring :
    activate to_gpu_format_id 0 swap_chain_800x600 (State.initial none 2 false) =
      Except.ok State.offscreen_active ∧
    State.offscreen_active.ctx.is_active_ = true ∧
    State.offscreen_active.ctx.thread_data_ = some 0 ∧
    (State.offscreen_active.device.thread_data 0).resource_pools_count = 2 ∧
    swap_buffers_post_handler to_gpu_format_id swap_chain_800x600 State.offscreen_active =
      Except.ok State.offscreen_active ∧
    ¬ ∃ s1, swap_buffers_post_handler to_gpu_format_id swap_chain_800x600
        State.offscreen_active = Except.ok s1 ∧
      resource_pool_next_calls s1.trace =
        resource_pool_next_calls State.offscreen_active.trace + 1 := by
  refine ⟨rfl, rfl, rfl, rfl, rfl, ?_⟩
  rintro ⟨s1, h1, h2⟩
  have e : swap_buffers_post_handler to_gpu_format_id swap_chain_800x600
      State.offscreen_active = Except.ok State.offscreen_active := rfl
  rw [e] at h1
  cases h1
  exact absurd h2 (by decide)

/-- C7, amended: on an active context that has a window (by the context invariant it is bound
to a thread `t` and has a graph open), each `swap_buffers_post_handler` call makes exactly one
`resource_pool_next` call, on the ring of thread `t` and of no other thread, and points `imm` at
the immediate-draw helper of the slot that is current afterwards; `activate`, `flush` and
`deactivate` make no `resource_pool_next` call and leave every ring as it was; with a ring of
size 2, the current slot being one of its two slots, the slot in use after two post-present
calls is the slot in use before them. -/
theorem post_handler_with_window_advances_ring (tgf : Nat → Nat)
    (scd : GHOST_VulkanSwapChainData) (s : State) (w : Nat)
    (hinv : s.ctx.agree) (hact : s.ctx.is_active_ = true)
    (hw : s.ctx.ghost_window_ = some w) :
    ∃ t, s.ctx.thread_data_ = some t ∧
    (∃ s1, swap_buffers_post_handler tgf scd s = Except.ok s1 ∧
      resource_pool_next_calls s1.trace = resource_pool_next_calls s.trace + 1 ∧
      s1.device.thread_data t = (s.device.thread_data t).resource_pool_next ∧
      (∀ t2, t2 ≠ t → s1.device.thread_data t2 = s.device.thread_data t2) ∧
      s1.ctx.imm = some (t, (s1.device.thread_data t).resource_pool_get)) ∧
    (∀ (thread : Nat) (scd0 : GHOST_VulkanSwapChainData) (s0 : State),
      s0.ctx.is_active_ = false →
      ∃ s2, activate tgf thread scd0 s0 = Except.ok s2 ∧
        resource_pool_next_calls s2.trace = resource_pool_next_calls s0.trace ∧
        s2.device.thread_data = s0.device.thread_data) ∧
    (∃ s3, flush s = Except.ok s3 ∧
      resource_pool_next_calls s3.trace = resource_pool_next_calls s.trace ∧
      s3.device.thread_data = s.device.thread_data) ∧
    (∃ s4, deactivate s = Except.ok s4 ∧
      resource_pool_next_calls s4.trace = resource_pool_next_calls s.trace ∧
      s4.device.thread_data = s.device.thread_data) ∧
    ((s.device.thread_data t).resource_pools_count = 2 →
      (s.device.thread_data t).resource_pool_index < 2 →
      ∀ scd2 : GHOST_VulkanSwapChainData,
        ∃ s1 s2, swap_buffers_post_handler tgf scd s = Except.ok s1 ∧
          swap_buffers_post_handler tgf scd2 s1 = Except.ok s2 ∧
          (s2.device.thread_data t).resource_pool_get =
            (s.device.thread_data t).resource_pool_get) := by
  have hts : s.ctx.thread_data_.isSome = true := hinv.1.mp hact
  obtain ⟨t, ht⟩ := Option.isSome_iff_exists.mp hts
  obtain ⟨g, hg⟩ := Option.isSome_iff_exists.mp (hinv.2.mp hts)
  obtain ⟨s1, h0, _, a2, _, _, a5, _, _, _, a9, a10, _, _, a13, _⟩ :=
    sync_backbuffer_frame tgf true scd s w t hw ht
  simp only [if_true] at a9 a10 a13
  refine ⟨t, ht, ⟨s1, h0, a13, ?_, ?_, ?_⟩, ?_, ?_, ?_, ?_⟩
  · rw [a10]; simp
  · intro t2 ht2
    rw [a10]; simp [Function.update_noteq ht2]
  · rw [a9, a10]; simp
  · intro thread scd0 s0 hi
    obtain ⟨s2, h2, _, _, _, _, _, _, b7, b8, _⟩ := activate_frame tgf thread scd0 s0 hi
    exact ⟨s2, h2, b8, b7⟩
  · obtain ⟨s3, h3, _, _, _, _, _, b6, b7, _⟩ := flush_frame s t g ht hg
    exact ⟨s3, h3, b7, b6⟩
  · obtain ⟨s4, h4, _, _, _, _, _, b6, b7, _⟩ := deactivate_frame s t g ht hg
    exact ⟨s4, h4, b7, b6⟩
  · intro hsize hidx scd2
    obtain ⟨s2, k0, _, _, _, _, _, _, _, _, _, k10, _⟩ :=
      sync_backbuffer_frame tgf true scd2 s1 w t (by rw [a5, hw]) (by rw [a2, ht])
    simp only [if_true] at k10
    refine ⟨s1, s2, h0, k0, ?_⟩
    rw [k10, a10]
    simp [VKThreadData.resource_pool_get, VKThreadData.resource_pool_next, hsize,
      ring_two_steps _ hidx]

/-- Witness of C7 as amended: two post-present calls on a window context with a ring of two
resource pools. -/
theorem post_handler_with_window_advances_ring_witness :
    State.window_active.ctx.agree ∧
    State.window_active.ctx.is_active_ = true ∧
    State.window_active.ctx.ghost_window_ = some 1 ∧
    (State.window_active.device.thread_data 0).resource_pools_count = 2 ∧
    (∃ s1, swap_buffers_post_handler to_gpu_format_id swap_chain_800x600 State.window_active =
        Except.ok s1 ∧
      resource_pool_next_calls s1.trace =
        resource_pool_next_calls State.window_active.trace + 1) ∧
    ∃ s1 s2, swap_buffers_post_handler to_gpu_format_id swap_chain_800x600
        State.window_active = Except.ok s1 ∧
      swap_buffers_post_handler to_gpu_format_id swap_chain_1920x1080 s1 = Except.ok s2 ∧
      (s2.device.thread_data 0).resource_pool_get =
        (State.window_active.device.thread_data 0).resource_pool_get := by
  have hinv : State.window_active.ctx.agree := by simp [VKContext.agree, State.window_active]
  refine ⟨hinv, rfl, rfl, rfl, ?_⟩
  obtain ⟨t, ht, ⟨s1, h0, h1, _⟩, _, _, _, hring⟩ :=
    post_handler_with_window_advances_ring to_gpu_format_id swap_chain_800x600
      State.window_active 1 hinv rfl rfl
  have ht0 : t = 0 := by
    have h : State.window_active.ctx.thread_data_ = some 0 := rfl
    rw [h] at ht
    exact (Option.some.inj ht).symm
  subst ht0
  exact ⟨⟨s1, h0, h1⟩, hring rfl (by decide) swap_chain_1920x1080⟩

/-- C8: `activate` succeeds exactly on an inactive context. On a context whose `is_active_` is
true it fails the assertion of its first statement, so that no field is changed; on an inactive
context it completes with `is_active_` true, `thread_data_` bound to the calling thread and `imm`
pointing at the immediate-draw helper of the current resource-pool slot of that thread. -/
theorem activate_succeeds_iff_inactive (tgf : Nat → Nat) (thread : Nat) (scd : GHOST_VulkanSwapChainData) (s : State) :
    ((∃ s1, activate tgf thread scd s = Except.ok s1) ↔ s.ctx.is_active_ = false) ∧
    (s.ctx.is_active_ = true →
      activate tgf thread scd s = Except.error (Failure.assertion "is_active_ == false")) ∧
    (s.ctx.is_active_ = false →
      ∃ s1, activate tgf thread scd s = Except.ok s1 ∧
        s1.ctx.is_active_ = true ∧
        s1.ctx.thread_data_ = some thread ∧
        s1.ctx.imm = some (thread, (s1.device.thread_data thread).resource_pool_get)) := by
  have hfail : s.ctx.is_active_ = true →
      activate tgf thread scd s = Except.error (Failure.assertion "is_active_ == false") := by
    intro h
    simp [activate, h]
  have hok : s.ctx.is_active_ = false →
      ∃ s1, activate tgf thread scd s = Except.ok s1 ∧
        s1.ctx.is_active_ = true ∧
        s1.ctx.thread_data_ = some thread ∧
        s1.ctx.imm = some (thread, (s1.device.thread_data thread).resource_pool_get) := by
    intro h
    obtain ⟨s1, h0, a1, a2, _, _, _, a6, a7, _⟩ := activate_frame tgf thread scd s h
    exact ⟨s1, h0, a1, a2, by rw [a6, a7]⟩
  refine ⟨⟨?_, ?_⟩, hfail, hok⟩
  · rintro ⟨s1, h1⟩
    cases hi : s.ctx.is_active_ with
    | false => rfl
    | true =>
      rw [hfail hi] at h1
      cases h1
  · intro h
    obtain ⟨s1, h0, _⟩ := hok h
    exact ⟨s1, h0⟩

/-- Witness of C8: activation of a newly constructed window context succeeds, and a second
activation of the active context `State.window_active` fails. -/
theorem activate_succeeds_iff_inactive_witness :
    (State.initial (some 1) 2 false).ctx.is_active_ = false ∧
    (∃ s1, activate to_gpu_format_id 0 swap_chain_800x600 (State.initial (some 1) 2 false) =
        Except.ok s1 ∧ s1.ctx.is_active_ = true ∧ s1.ctx.thread_data_ = some 0) ∧
    State.window_active.ctx.is_active_ = true ∧
    activate to_gpu_format_id 0 swap_chain_800x600 State.window_active =
      Except.error (Failure.assertion "is_active_ == false") := by
  refine ⟨rfl, ?_, rfl, ?_⟩
  · obtain ⟨s1, h0, h1, h2, _⟩ :=
      (activate_succeeds_iff_inactive to_gpu_format_id 0 swap_chain_800x600
        (State.initial (some 1) 2 false)).2.2 rfl
    exact ⟨s1, h0, h1, h2⟩
  · exact (activate_succeeds_iff_inactive to_gpu_format_id 0 swap_chain_800x600
      State.window_active).2.1 rfl

/-! ## Bit utilities: lemmas -/

theorem lt_two_pow_of_testBit_top (w a : Nat) (hw : a < 2 ^ (w + 1)) (hb : a.testBit w = false) :
    a < 2 ^ w := by
  apply Nat.lt_pow_two_of_testBit
  intro i hi
  rcases Nat.eq_or_lt_of_le hi with h | h
  · subst h; exact hb
  · apply Nat.testBit_lt_two_pow
    calc a < 2 ^ (w + 1) := hw
      _ ≤ 2 ^ i := Nat.pow_le_pow_right (by decide) (by omega)

theorem leading_zeros_spec (w a : Nat) (h : 0 < a) (hw : a < 2 ^ w) :
    leading_zeros w a < w ∧ a.testBit (w - 1 - leading_zeros w a) = true ∧
      ∀ k, w - 1 - leading_zeros w a < k → a.testBit k = false := by
  induction w with
  | zero => simp at hw; omega
  | succ w ih =>
    by_cases hb : a.testBit w = true
    · have e : leading_zeros (w + 1) a = 0 := by simp [leading_zeros, hb]
      rw [e]
      refine ⟨by omega, by simpa using hb, ?_⟩
      intro k hk
      apply Nat.testBit_lt_two_pow
      calc a < 2 ^ (w + 1) := hw
        _ ≤ 2 ^ k := Nat.pow_le_pow_right (by decide) (by omega)
    · have e : leading_zeros (w + 1) a = 1 + leading_zeros w a := by simp [leading_zeros, hb]
      rw [e]
      have hlt : a < 2 ^ w := lt_two_pow_of_testBit_top w a hw (by simpa using hb)
      obtain ⟨h1, h2, h3⟩ := ih hlt
      refine ⟨by omega, ?_, ?_⟩
      · have : w + 1 - 1 - (1 + leading_zeros w a) = w - 1 - leading_zeros w a := by omega
        rw [this]; exact h2
      · intro k hk
        apply h3
        omega

theorem clear_testBit (a i k : Nat) (hi : i < 32) (ha : a < 2 ^ 32) :
    (a &&& (0xFFFFFFFF ^^^ (0x80000000 >>> i))).testBit k =
      (a.testBit k && decide (k ≠ 31 - i)) := by
  have e1 : (0xFFFFFFFF : Nat) = 2 ^ 32 - 1 := by norm_num
  have e2 : (0x80000000 : Nat) = 2 ^ 31 := by norm_num
  rw [Nat.testBit_and, Nat.testBit_xor, Nat.testBit_shiftRight, e1, e2,
    Nat.testBit_two_pow_sub_one, Nat.testBit_two_pow]
  by_cases hk : k < 32
  · by_cases hk2 : k = 31 - i
    · have h1 : decide (k < 32) = true := decide_eq_true hk
      have h2 : decide (31 = i + k) = true := decide_eq_true (by omega)
      have h3 : decide (k ≠ 31 - i) = false := decide_eq_false (by omega)
      rw [h1, h2, h3]; simp
    · have h1 : decide (k < 32) = true := decide_eq_true hk
      have h2 : decide (31 = i + k) = false := decide_eq_false (by omega)
      have h3 : decide (k ≠ 31 - i) = true := decide_eq_true (by omega)
      rw [h1, h2, h3]; simp
  · have : a.testBit k = false := by
      apply Nat.testBit_lt_two_pow
      calc a < 2 ^ 32 := ha
        _ ≤ 2 ^ k := Nat.pow_le_pow_right (by decide) (by omega)
    simp [this]

theorem count_bits_eq_set_bits (w a : Nat) : count_bits w a = set_bits w a := by
  induction w generalizing a with
  | zero => simp [count_bits, set_bits]
  | succ w ih =>
    unfold count_bits set_bits
    rw [List.range_succ_eq_map, List.countP_cons, List.countP_map, ih (a / 2)]
    unfold set_bits
    have e : ((fun k => a.testBit k) ∘ Nat.succ) = fun k => (a / 2).testBit k := by
      funext k
      simp [Nat.testBit_succ]
    rw [e]
    rcases Nat.mod_two_eq_zero_or_one a with h | h
    · simp [h]
    · simp [h]; omega

theorem countP_erase_bit (p q : Nat → Bool) (j : Nat) (l : List Nat) (hl : l.Nodup) (hj : j ∈ l)
    (hp : p j = true) (hq : ∀ k, q k = (p k && decide (k ≠ j))) :
    l.countP q + 1 = l.countP p := by
  induction l with
  | nil => simp at hj
  | cons x xs ih =>
    rw [List.nodup_cons] at hl
    rw [List.countP_cons, List.countP_cons]
    by_cases hx : x = j
    · subst hx
      have hq' : List.countP q xs = List.countP p xs := by
        apply List.countP_congr
        intro k hk
        have : k ≠ x := fun e => hl.1 (e ▸ hk)
        simp [hq, this]
      have : q x = false := by simp [hq]
      simp [this, hp, hq']
    · have hj' : j ∈ xs := by
        rcases List.mem_cons.mp hj with h | h
        · exact absurd h.symm hx
        · exact h
      have := ih hl.2 hj'
      have e : q x = p x := by simp [hq, hx]
      rw [e]
      omega

theorem set_bits_eq_zero (w a : Nat) (ha : a < 2 ^ w) : set_bits w a = 0 ↔ a = 0 := by
  constructor
  · intro h
    unfold set_bits at h
    rw [List.countP_eq_zero] at h
    apply Nat.eq_of_testBit_eq
    intro i
    rw [Nat.zero_testBit]
    by_cases hi : i < w
    · have := h i (List.mem_range.mpr hi)
      simpa using this
    · apply Nat.testBit_lt_two_pow
      calc a < 2 ^ w := ha
        _ ≤ 2 ^ i := Nat.pow_le_pow_right (by decide) (by omega)
  · rintro rfl
    simp [set_bits]

theorem bitscan_bits (a : Nat) (h0 : 0 < a) (h32 : a < 2 ^ 32) :
    (bitscan_reverse_clear_uint a).1 < 32 ∧
    a.testBit (31 - (bitscan_reverse_clear_uint a).1) = true ∧
    (∀ k, 31 - (bitscan_reverse_clear_uint a).1 < k → a.testBit k = false) ∧
    (∀ k, (bitscan_reverse_clear_uint a).2.testBit k =
      (a.testBit k && decide (k ≠ 31 - (bitscan_reverse_clear_uint a).1))) := by
  obtain ⟨h1, h2, h3⟩ := leading_zeros_spec 32 a h0 h32
  refine ⟨h1, h2, h3, ?_⟩
  intro k
  exact clear_testBit a (leading_zeros 32 a) k h1 h32

theorem clear_highest_lt (a : Nat) (h0 : 0 < a) (h32 : a < 2 ^ 32) : clear_highest a < a := by
  obtain ⟨h1, h2, h3, h4⟩ := bitscan_bits a h0 h32
  have hle : clear_highest a ≤ a := Nat.and_le_left
  rcases Nat.eq_or_lt_of_le hle with h | h
  · exfalso
    have := h4 (31 - (bitscan_reverse_clear_uint a).1)
    unfold clear_highest at h
    rw [h, h2] at this
    simp at this
  · exact h

theorem set_bits_clear_highest (a : Nat) (h0 : 0 < a) (h32 : a < 2 ^ 32) :
    set_bits 32 (clear_highest a) + 1 = set_bits 32 a := by
  obtain ⟨h1, h2, h3, h4⟩ := bitscan_bits a h0 h32
  exact countP_erase_bit _ _ (31 - (bitscan_reverse_clear_uint a).1) (List.range 32)
    (List.nodup_range 32) (List.mem_range.mpr (by omega)) h2 h4

theorem bitscan_increasing (a : Nat) (h0 : 0 < a) (h32 : a < 2 ^ 32)
    (hne : (bitscan_reverse_clear_uint a).2 ≠ 0) :
    (bitscan_reverse_clear_uint a).1 <
      (bitscan_reverse_clear_uint (bitscan_reverse_clear_uint a).2).1 := by
  obtain ⟨h1, h2, h3, h4⟩ := bitscan_bits a h0 h32
  have hlt := clear_highest_lt a h0 h32
  unfold clear_highest at hlt
  obtain ⟨g1, g2, g3, g4⟩ := bitscan_bits (bitscan_reverse_clear_uint a).2
    (Nat.pos_of_ne_zero hne) (lt_trans hlt h32)
  rw [h4] at g2
  simp only [Bool.and_eq_true, decide_eq_true_eq] at g2
  by_contra hcon
  push_neg at hcon
  rcases Nat.eq_or_lt_of_le hcon with e | e
  · exact g2.2 (by rw [e])
  · have := h3 _ (show 31 - (bitscan_reverse_clear_uint a).1 <
        31 - (bitscan_reverse_clear_uint (bitscan_reverse_clear_uint a).2).1 by omega)
    rw [this] at g2
    exact Bool.false_ne_true g2.1

theorem iterate_clear_highest (n a : Nat) (h32 : a < 2 ^ 32) (hn : set_bits 32 a = n) :
    clear_highest^[n] a = 0 ∧ ∀ m, m < n → clear_highest^[m] a ≠ 0 := by
  induction n generalizing a with
  | zero =>
    refine ⟨?_, fun m hm => absurd hm (Nat.not_lt_zero m)⟩
    simpa using (set_bits_eq_zero 32 a h32).mp hn
  | succ n ih =>
    have h0 : 0 < a := by
      rcases Nat.eq_zero_or_pos a with h | h
      · subst h; simp [set_bits] at hn
      · exact h
    have hlt := clear_highest_lt a h0 h32
    have hc := set_bits_clear_highest a h0 h32
    obtain ⟨i1, i2⟩ := ih (clear_highest a) (lt_trans hlt h32) (by omega)
    refine ⟨by simpa [Function.iterate_succ_apply] using i1, ?_⟩
    intro m hm
    cases m with
    | zero => simpa using h0.ne'
    | succ m =>
      rw [Function.iterate_succ_apply]
      exact i2 m (by omega)

theorem count_bits_of_lt (w k a : Nat) (ha : a < 2 ^ w) : count_bits (w + k) a = count_bits w a := by
  induction w generalizing a with
  | zero =>
    have : a = 0 := by simpa using ha
    subst this
    simp only [Nat.zero_add, count_bits]
    clear ha
    induction k with
    | zero => rfl
    | succ k ih => simp [count_bits, ih]
  | succ w ih =>
    have e : w + 1 + k = (w + k) + 1 := by omega
    rw [e, count_bits, count_bits, ih]
    rw [Nat.div_lt_iff_lt_mul (by decide)]
    simpa [pow_succ] using ha

/-! ## Bit utilities: properties -/

/-- C9: for every non-zero 32-bit unsigned `a`, `bitscan_reverse_clear_uint` returns the number
of leading zero bits of `a` (bit `31 - r` is set and every higher bit is clear) and clears exactly
that bit, every other bit being unchanged; the next call, if `a` is not yet zero, returns a
strictly larger position; `a` reaches zero after exactly as many calls as it had set bits and
not earlier; and both sequences of the test are reproduced. -/
theorem bitscan_reverse_clear_uint_correct (a : Nat) (h0 : 0 < a) (h32 : a < 2 ^ 32) :
    (bitscan_reverse_clear_uint a).1 < 32 ∧
    a.testBit (31 - (bitscan_reverse_clear_uint a).1) = true ∧
    (∀ k, 31 - (bitscan_reverse_clear_uint a).1 < k → a.testBit k = false) ∧
    (∀ k, (bitscan_reverse_clear_uint a).2.testBit k =
      (a.testBit k && decide (k ≠ 31 - (bitscan_reverse_clear_uint a).1))) ∧
    ((bitscan_reverse_clear_uint a).2 ≠ 0 →
      (bitscan_reverse_clear_uint a).1 <
        (bitscan_reverse_clear_uint (bitscan_reverse_clear_uint a).2).1) ∧
    (fun x => (bitscan_reverse_clear_uint x).2)^[set_bits 32 a] a = 0 ∧
    (∀ m, m < set_bits 32 a → (fun x => (bitscan_reverse_clear_uint x).2)^[m] a ≠ 0) ∧
    bitscan_all 32 1234 = [(21, 210), (24, 82), (25, 18), (27, 2), (30, 0)] ∧
    bitscan_all 32 3563987529 =
      [(0, 1416503881), (1, 342762057), (3, 74326601), (5, 7217737), (9, 3023433),
       (10, 926281), (12, 401993), (13, 139849), (14, 8777), (18, 585), (22, 73), (25, 9),
       (28, 1), (31, 0)] := by
  obtain ⟨h1, h2, h3, h4⟩ := bitscan_bits a h0 h32
  obtain ⟨i1, i2⟩ := iterate_clear_highest (set_bits 32 a) a h32 rfl
  exact ⟨h1, h2, h3, h4, bitscan_increasing a h0 h32, i1, i2, by decide, by decide⟩

/-- Witness of C9 at the first test value, `a = 1234`: the call returns 21 and leaves 210. -/
theorem bitscan_reverse_clear_uint_correct_witness :
    0 < 1234 ∧ 1234 < 2 ^ 32 ∧ bitscan_reverse_clear_uint 1234 = (21, 210) ∧
    (bitscan_reverse_clear_uint 1234).1 < 32 ∧
    (1234).testBit (31 - (bitscan_reverse_clear_uint 1234).1) = true :=
  ⟨by decide, by decide, by decide,
    (bitscan_reverse_clear_uint_correct 1234 (by decide) (by decide)).1,
    (bitscan_reverse_clear_uint_correct 1234 (by decide) (by decide)).2.1⟩

/-- C10: for every 32-bit int `x`, `count_bits_i x` is the number of 1 bits of the 32-bit
two-complement representation of `x` (0 gives 0, -1 gives 32); for every unsigned `y`, so for
every 64-bit one, `count_bits_uint64 y` is the number of 1 bits among its 64 low positions (all
ones gives 64); and for non-negative
`x` both functions return the same count. The values of the test are reproduced. -/
theorem count_bits_correct (x : Int) (y : Nat) (hx : -2 ^ 31 ≤ x ∧ x < 2 ^ 31) :
    count_bits_i x = set_bits 32 (x % 2 ^ 32).toNat ∧
    count_bits_uint64 y = set_bits 64 y ∧
    (0 ≤ x → count_bits_uint64 (int_to_uint64 x) = count_bits_i x) ∧
    count_bits_i 0 = 0 ∧ count_bits_uint64 0 = 0 ∧
    count_bits_i (-1) = 32 ∧ count_bits_uint64 (2 ^ 64 - 1) = 64 ∧
    count_bits_i 161 = 3 ∧ count_bits_uint64 (int_to_uint64 161) = 3 ∧
    count_bits_uint64 (2 ^ 50 + 1) = 2 := by
  refine ⟨count_bits_eq_set_bits _ _, count_bits_eq_set_bits _ _, ?_,
    rfl, rfl, rfl, rfl, rfl, rfl, rfl⟩
  intro hx0
  obtain ⟨n, rfl⟩ := Int.eq_ofNat_of_zero_le hx0
  have hn : n < 2 ^ 31 := by exact_mod_cast hx.2
  have e1 : ((n : Int) % 2 ^ 64).toNat = n := by
    have : ((n : Int) % 2 ^ 64) = ((n % 2 ^ 64 : Nat) : Int) := by norm_cast
    rw [this, Int.toNat_ofNat]
    exact Nat.mod_eq_of_lt (by omega)
  have e2 : ((n : Int) % 2 ^ 32).toNat = n := by
    have : ((n : Int) % 2 ^ 32) = ((n % 2 ^ 32 : Nat) : Int) := by norm_cast
    rw [this, Int.toNat_ofNat]
    exact Nat.mod_eq_of_lt (by omega)
  unfold count_bits_uint64 int_to_uint64 count_bits_i
  rw [e1, e2]
  exact count_bits_of_lt 32 32 n (by omega)

/-- Witness of C10 at the test values `x = 161` and `y = 2^50 + 1`. -/
theorem count_bits_correct_witness :
    ((-2 ^ 31 : Int) ≤ 161 ∧ (161 : Int) < 2 ^ 31) ∧
    count_bits_i 161 = set_bits 32 ((161 : Int) % 2 ^ 32).toNat ∧
    count_bits_uint64 (int_to_uint64 161) = count_bits_i 161 :=
  ⟨by decide,
    (count_bits_correct 161 (2 ^ 50 + 1) (by decide)).1,
    (count_bits_correct 161 (2 ^ 50 + 1) (by decide)).2.2.1 (by decide)⟩

end Blender
